import Mathlib

/-!
Verification development for the PTX parser front-end (`ptx_parser/src/main.rs`).

The parser runs over a token stream produced by a logos lexer; the stream
carries a mutable diagnostic buffer (`Stateful<&[Token], Vec<PtxError>>`).
We embed the token-level parsers shallowly: a parser is a function from the
token list and the diagnostic buffer to an optional result (value plus
remaining tokens) and the updated buffer.  Failure keeps any diagnostics
already pushed, exactly as winnow's `Stateful` stream does (its checkpoints
capture only the input position, not the state).

Types that live in `ast.rs` (not part of the sources at hand) are modelled
from the spec; the instruction-rule parsers generated by `derive_parser!`
(the `gen` crate, also not at hand) are modelled from the spec's description
of the rule DSL, with each rule's semantic body translated from `main.rs`.
-/

/-- Tokens of the PTX lexer, translated from the `derive_parser!` token
declaration in `main.rs` (payload-carrying variants keep the matched source
slice) together with the dot-modifier tokens that the rule table makes the
generator add (`.weak`, `.global`, `.wb`, `.v4`, `.b32`, ...). -/
inductive Token where
  | Comma | Dot | Colon | Semicolon | At
  | Ident (s : String)
  | StringLit
  | Or | Not
  | LParen | RParen | LBracket | RBracket | LBrace | RBrace
  | Lt | Gt
  | F32 (s : String) | F64 (s : String)
  | Hex (s : String) | Decimal (s : String)
  | Minus | Plus
  | DotVersion | DotLoc | DotReg | DotAlign | DotPragma
  | DotMaxnreg | DotMaxntid | DotReqntid | DotMinnctapersm
  | DotEntry | DotFunc | DotExtern | DotVisible | DotTarget | DotAddressSize
  | DotWeak | DotVolatile | DotRelaxed | DotRelease | DotAcquire | DotMmio
  | DotCta | DotCluster | DotGpu | DotSys
  | DotGlobal | DotLocal | DotParam | DotParamFunc | DotParamEntry
  | DotShared | DotSharedCta | DotSharedCluster | DotConst
  | DotV2 | DotV4
  | DotS8 | DotS16 | DotS16x2 | DotS32 | DotS64
  | DotU8 | DotU16 | DotU16x2 | DotU32 | DotU64
  | DotB8 | DotB16 | DotB32 | DotB64 | DotB128
  | DotPred | DotF16 | DotF16x2 | DotF32 | DotF64 | DotBF16 | DotBF16x2
  | DotWb | DotCg | DotCs | DotWt | DotCa | DotLu | DotCv
  | DotRn | DotRz | DotRm | DotRp
  | DotSat | DotFtz | DotUni | DotUnified
  | DotL1EvictNormal | DotL1EvictUnchanged | DotL1EvictFirst
  | DotL1EvictLast | DotL1NoAllocate
  | DotL2CacheHint | DotL2Prefetch64B | DotL2Prefetch128B | DotL2Prefetch256B

/-- Constructor index and payload of a token; the basis for the decidable
equality instance (a derived instance of this size is impractical here). -/
def Token.code : Token → Nat × String
  | Token.Comma => (0, "")
  | Token.Dot => (1, "")
  | Token.Colon => (2, "")
  | Token.Semicolon => (3, "")
  | Token.At => (4, "")
  | Token.Ident s => (5, s)
  | Token.StringLit => (6, "")
  | Token.Or => (7, "")
  | Token.Not => (8, "")
  | Token.LParen => (9, "")
  | Token.RParen => (10, "")
  | Token.LBracket => (11, "")
  | Token.RBracket => (12, "")
  | Token.LBrace => (13, "")
  | Token.RBrace => (14, "")
  | Token.Lt => (15, "")
  | Token.Gt => (16, "")
  | Token.F32 s => (17, s)
  | Token.F64 s => (18, s)
  | Token.Hex s => (19, s)
  | Token.Decimal s => (20, s)
  | Token.Minus => (21, "")
  | Token.Plus => (22, "")
  | Token.DotVersion => (23, "")
  | Token.DotLoc => (24, "")
  | Token.DotReg => (25, "")
  | Token.DotAlign => (26, "")
  | Token.DotPragma => (27, "")
  | Token.DotMaxnreg => (28, "")
  | Token.DotMaxntid => (29, "")
  | Token.DotReqntid => (30, "")
  | Token.DotMinnctapersm => (31, "")
  | Token.DotEntry => (32, "")
  | Token.DotFunc => (33, "")
  | Token.DotExtern => (34, "")
  | Token.DotVisible => (35, "")
  | Token.DotTarget => (36, "")
  | Token.DotAddressSize => (37, "")
  | Token.DotWeak => (38, "")
  | Token.DotVolatile => (39, "")
  | Token.DotRelaxed => (40, "")
  | Token.DotRelease => (41, "")
  | Token.DotAcquire => (42, "")
  | Token.DotMmio => (43, "")
  | Token.DotCta => (44, "")
  | Token.DotCluster => (45, "")
  | Token.DotGpu => (46, "")
  | Token.DotSys => (47, "")
  | Token.DotGlobal => (48, "")
  | Token.DotLocal => (49, "")
  | Token.DotParam => (50, "")
  | Token.DotParamFunc => (51, "")
  | Token.DotParamEntry => (52, "")
  | Token.DotShared => (53, "")
  | Token.DotSharedCta => (54, "")
  | Token.DotSharedCluster => (55, "")
  | Token.DotConst => (56, "")
  | Token.DotV2 => (57, "")
  | Token.DotV4 => (58, "")
  | Token.DotS8 => (59, "")
  | Token.DotS16 => (60, "")
  | Token.DotS16x2 => (61, "")
  | Token.DotS32 => (62, "")
  | Token.DotS64 => (63, "")
  | Token.DotU8 => (64, "")
  | Token.DotU16 => (65, "")
  | Token.DotU16x2 => (66, "")
  | Token.DotU32 => (67, "")
  | Token.DotU64 => (68, "")
  | Token.DotB8 => (69, "")
  | Token.DotB16 => (70, "")
  | Token.DotB32 => (71, "")
  | Token.DotB64 => (72, "")
  | Token.DotB128 => (73, "")
  | Token.DotPred => (74, "")
  | Token.DotF16 => (75, "")
  | Token.DotF16x2 => (76, "")
  | Token.DotF32 => (77, "")
  | Token.DotF64 => (78, "")
  | Token.DotBF16 => (79, "")
  | Token.DotBF16x2 => (80, "")
  | Token.DotWb => (81, "")
  | Token.DotCg => (82, "")
  | Token.DotCs => (83, "")
  | Token.DotWt => (84, "")
  | Token.DotCa => (85, "")
  | Token.DotLu => (86, "")
  | Token.DotCv => (87, "")
  | Token.DotRn => (88, "")
  | Token.DotRz => (89, "")
  | Token.DotRm => (90, "")
  | Token.DotRp => (91, "")
  | Token.DotSat => (92, "")
  | Token.DotFtz => (93, "")
  | Token.DotUni => (94, "")
  | Token.DotUnified => (95, "")
  | Token.DotL1EvictNormal => (96, "")
  | Token.DotL1EvictUnchanged => (97, "")
  | Token.DotL1EvictFirst => (98, "")
  | Token.DotL1EvictLast => (99, "")
  | Token.DotL1NoAllocate => (100, "")
  | Token.DotL2CacheHint => (101, "")
  | Token.DotL2Prefetch64B => (102, "")
  | Token.DotL2Prefetch128B => (103, "")
  | Token.DotL2Prefetch256B => (104, "")

/-- Left inverse of `Token.code`. -/
def Token.decode : Nat × String → Token
  | (1, _) => Token.Dot
  | (2, _) => Token.Colon
  | (3, _) => Token.Semicolon
  | (4, _) => Token.At
  | (5, s) => Token.Ident s
  | (6, _) => Token.StringLit
  | (7, _) => Token.Or
  | (8, _) => Token.Not
  | (9, _) => Token.LParen
  | (10, _) => Token.RParen
  | (11, _) => Token.LBracket
  | (12, _) => Token.RBracket
  | (13, _) => Token.LBrace
  | (14, _) => Token.RBrace
  | (15, _) => Token.Lt
  | (16, _) => Token.Gt
  | (17, s) => Token.F32 s
  | (18, s) => Token.F64 s
  | (19, s) => Token.Hex s
  | (20, s) => Token.Decimal s
  | (21, _) => Token.Minus
  | (22, _) => Token.Plus
  | (23, _) => Token.DotVersion
  | (24, _) => Token.DotLoc
  | (25, _) => Token.DotReg
  | (26, _) => Token.DotAlign
  | (27, _) => Token.DotPragma
  | (28, _) => Token.DotMaxnreg
  | (29, _) => Token.DotMaxntid
  | (30, _) => Token.DotReqntid
  | (31, _) => Token.DotMinnctapersm
  | (32, _) => Token.DotEntry
  | (33, _) => Token.DotFunc
  | (34, _) => Token.DotExtern
  | (35, _) => Token.DotVisible
  | (36, _) => Token.DotTarget
  | (37, _) => Token.DotAddressSize
  | (38, _) => Token.DotWeak
  | (39, _) => Token.DotVolatile
  | (40, _) => Token.DotRelaxed
  | (41, _) => Token.DotRelease
  | (42, _) => Token.DotAcquire
  | (43, _) => Token.DotMmio
  | (44, _) => Token.DotCta
  | (45, _) => Token.DotCluster
  | (46, _) => Token.DotGpu
  | (47, _) => Token.DotSys
  | (48, _) => Token.DotGlobal
  | (49, _) => Token.DotLocal
  | (50, _) => Token.DotParam
  | (51, _) => Token.DotParamFunc
  | (52, _) => Token.DotParamEntry
  | (53, _) => Token.DotShared
  | (54, _) => Token.DotSharedCta
  | (55, _) => Token.DotSharedCluster
  | (56, _) => Token.DotConst
  | (57, _) => Token.DotV2
  | (58, _) => Token.DotV4
  | (59, _) => Token.DotS8
  | (60, _) => Token.DotS16
  | (61, _) => Token.DotS16x2
  | (62, _) => Token.DotS32
  | (63, _) => Token.DotS64
  | (64, _) => Token.DotU8
  | (65, _) => Token.DotU16
  | (66, _) => Token.DotU16x2
  | (67, _) => Token.DotU32
  | (68, _) => Token.DotU64
  | (69, _) => Token.DotB8
  | (70, _) => Token.DotB16
  | (71, _) => Token.DotB32
  | (72, _) => Token.DotB64
  | (73, _) => Token.DotB128
  | (74, _) => Token.DotPred
  | (75, _) => Token.DotF16
  | (76, _) => Token.DotF16x2
  | (77, _) => Token.DotF32
  | (78, _) => Token.DotF64
  | (79, _) => Token.DotBF16
  | (80, _) => Token.DotBF16x2
  | (81, _) => Token.DotWb
  | (82, _) => Token.DotCg
  | (83, _) => Token.DotCs
  | (84, _) => Token.DotWt
  | (85, _) => Token.DotCa
  | (86, _) => Token.DotLu
  | (87, _) => Token.DotCv
  | (88, _) => Token.DotRn
  | (89, _) => Token.DotRz
  | (90, _) => Token.DotRm
  | (91, _) => Token.DotRp
  | (92, _) => Token.DotSat
  | (93, _) => Token.DotFtz
  | (94, _) => Token.DotUni
  | (95, _) => Token.DotUnified
  | (96, _) => Token.DotL1EvictNormal
  | (97, _) => Token.DotL1EvictUnchanged
  | (98, _) => Token.DotL1EvictFirst
  | (99, _) => Token.DotL1EvictLast
  | (100, _) => Token.DotL1NoAllocate
  | (101, _) => Token.DotL2CacheHint
  | (102, _) => Token.DotL2Prefetch64B
  | (103, _) => Token.DotL2Prefetch128B
  | (104, _) => Token.DotL2Prefetch256B
  | (_, _) => Token.Comma

/-- Decoding the code of a token gives the token back. -/
theorem Token.decode_code : ∀ t : Token, Token.decode (Token.code t) = t := by
  intro t
  cases t <;> rfl

instance : DecidableEq Token := fun a b =>
  if h : a.code = b.code then
    Decidable.isTrue (by
      have h2 := congrArg Token.decode h
      rwa [Token.decode_code, Token.decode_code] at h2)
  else Decidable.isFalse (fun e => h (by rw [e]))


/-- Diagnostic kinds, translated from `enum PtxError` in `main.rs`.  The Rust
`ParseInt`/`ParseFloat` variants carry the std error value; no claim inspects
that payload, so the variants are plain here. -/
inductive PtxError where
  | ParseInt | ParseFloat | Todo | SyntaxError | NonF32Ftz | WrongArrayType
  | WrongVectorElement | MultiArrayVariable | ZeroDimensionArray
  | ArrayInitalizer | NonExternPointer
  | UnrecognizedStatement (startPos stopPos : Nat)
  | UnrecognizedDirective (startPos stopPos : Nat)
deriving DecidableEq, Repr

/-- Modelled from the spec: scalar types of `ast.rs` (the set is fixed by the
`scalar_type` token match in `main.rs`). -/
inductive ScalarType where
  | S8 | S16 | S16x2 | S32 | S64
  | U8 | U16 | U16x2 | U32 | U64
  | B8 | B16 | B32 | B64 | B128
  | Pred | F16 | F16x2 | F32 | F64 | BF16 | BF16x2
deriving DecidableEq, Repr

/-- Modelled from the spec: the `.v2` / `.v4` vector width marker. -/
inductive VectorPrefix where
  | V2 | V4
deriving DecidableEq, Repr

/-- Modelled from the spec: `ast::Type` is a scalar or a vector of a scalar. -/
inductive PtxType where
  | Scalar (s : ScalarType)
  | Vector (v : VectorPrefix) (s : ScalarType)
deriving DecidableEq, Repr

/-- Modelled from the spec: `ast::Type::maybe_vector` wraps the scalar in a
vector type exactly when a vector prefix modifier was present. -/
def PtxType.maybe_vector (v : Option VectorPrefix) (s : ScalarType) : PtxType :=
  match v with
  | none => PtxType.Scalar s
  | some p => PtxType.Vector p s

/-- Modelled from the spec: state spaces
(`Reg, Local, Param, Shared, Generic, Global, Const`). -/
inductive StateSpace where
  | Reg | Local | Param | Shared | Generic | Global | Const
deriving DecidableEq, Repr

/-- Modelled from the spec: memory scopes (`cta`, `cluster`, `gpu`, `sys`). -/
inductive MemScope where
  | Cta | Cluster | Gpu | Sys
deriving DecidableEq, Repr

/-- Raw load/store qualifier enum produced by the generated parser
(declared in the rule table as `RawLdStQualifier = { .weak, .volatile }`). -/
inductive RawLdStQualifier where
  | Weak | Volatile
deriving DecidableEq, Repr

/-- Modelled from the spec: semantic load/store qualifier of `ast.rs`;
the rule bodies in `main.rs` build `Weak`, `Volatile`, `Relaxed(scope)`,
`Acquire(scope)` and `Release(scope)` values of it. -/
inductive LdStQualifier where
  | Weak | Volatile
  | Relaxed (s : MemScope) | Acquire (s : MemScope) | Release (s : MemScope)
deriving DecidableEq, Repr

/-- Raw store cache operator (rule table: `.cop: RawStCacheOperator =
{ .wb, .cg, .cs, .wt }`). -/
inductive RawStCacheOperator where
  | Wb | Cg | Cs | Wt
deriving DecidableEq, Repr

/-- Modelled from the spec: semantic store cache operator of `ast.rs`. -/
inductive StCacheOperator where
  | Writeback | L2Only | Streaming | Writethrough
deriving DecidableEq, Repr

/-- Raw load cache operator (rule table: `.cop: RawLdCacheOperator =
{ .ca, .cg, .cs, .lu, .cv }`). -/
inductive RawLdCacheOperator where
  | Ca | Cg | Cs | Lu | Cv
deriving DecidableEq, Repr

/-- Modelled from the spec: semantic load cache operator of `ast.rs`. -/
inductive LdCacheOperator where
  | Cached | L2Only | Streaming | LastUse | Uncached
deriving DecidableEq, Repr

/-- Raw rounding modifier (rule table: `.rnd: RawFloatRounding =
{ .rn, .rz, .rm, .rp }`). -/
inductive RawFloatRounding where
  | Rn | Rz | Rm | Rp
deriving DecidableEq, Repr

/-- Modelled from the spec: semantic rounding mode of `ast.rs`. -/
inductive RoundingMode where
  | NearestEven | Zero | NegativeInf | PositiveInf
deriving DecidableEq, Repr

/-- Modelled from the spec: the `.L1::evict_*` eviction-priority modifier
values (rule table `.level::eviction_priority: EvictionPriority = ...`). -/
inductive EvictionPriority where
  | EvictNormal | EvictUnchanged | EvictFirst | EvictLast | NoAllocate
deriving DecidableEq, Repr

/-- Modelled from the spec: the `.L2::64B/128B/256B` prefetch-size modifier
values (ld rule table). -/
inductive PrefetchSize where
  | B64 | B128 | B256
deriving DecidableEq, Repr

/-- Translated from `impl From<RawStCacheOperator> for StCacheOperator`
in `main.rs`. -/
def RawStCacheOperator.into : RawStCacheOperator → StCacheOperator
  | RawStCacheOperator.Wb => StCacheOperator.Writeback
  | RawStCacheOperator.Cg => StCacheOperator.L2Only
  | RawStCacheOperator.Cs => StCacheOperator.Streaming
  | RawStCacheOperator.Wt => StCacheOperator.Writethrough

/-- Translated from `impl From<RawLdCacheOperator> for LdCacheOperator`
in `main.rs`. -/
def RawLdCacheOperator.into : RawLdCacheOperator → LdCacheOperator
  | RawLdCacheOperator.Ca => LdCacheOperator.Cached
  | RawLdCacheOperator.Cg => LdCacheOperator.L2Only
  | RawLdCacheOperator.Cs => LdCacheOperator.Streaming
  | RawLdCacheOperator.Lu => LdCacheOperator.LastUse
  | RawLdCacheOperator.Cv => LdCacheOperator.Uncached

/-- Translated from `impl From<RawLdStQualifier> for LdStQualifier`
in `main.rs`. -/
def RawLdStQualifier.into : RawLdStQualifier → LdStQualifier
  | RawLdStQualifier.Weak => LdStQualifier.Weak
  | RawLdStQualifier.Volatile => LdStQualifier.Volatile

/-- Translated from `impl From<RawFloatRounding> for RoundingMode`
in `main.rs`. -/
def RawFloatRounding.into : RawFloatRounding → RoundingMode
  | RawFloatRounding.Rn => RoundingMode.NearestEven
  | RawFloatRounding.Rz => RoundingMode.Zero
  | RawFloatRounding.Rm => RoundingMode.NegativeInf
  | RawFloatRounding.Rp => RoundingMode.PositiveInf

/-- Immediate values (`ast::ImmediateValue`, modelled from the spec:
`S64 | U64 | F32 | F64`).  The float variants store the IEEE bit pattern the
parser decoded (`f32::from_bits` / `f64::from_bits` are bijections on bit
patterns, so parse behaviour is represented faithfully). -/
inductive ImmediateValue where
  | S64 (v : Int)
  | U64 (v : Nat)
  | F32 (bits : Nat)
  | F64 (bits : Nat)
deriving DecidableEq, Repr

/-- Parsed operands (`ast::ParsedOperand`, modelled from the spec), with
identifiers as strings. -/
inductive ParsedOperand where
  | Reg (s : String)
  | RegOffset (s : String) (off : Int)
  | Imm (v : ImmediateValue)
  | VecMember (s : String) (idx : Nat)
  | VecPack (l : List String)
deriving DecidableEq, Repr

/-! ## Rust integer-literal parsing

`i64::from_str_radix` / `u64::from_str_radix` and friends, specialised to the
sign-free digit strings the lexer hands over (the token regexes
`0[xX][0-9a-zA-Z]+U?` and `[0-9]+U?` admit no sign character, and `num`
strips only the radix prefix and the `U` suffix). -/

/-- Rust `char::to_digit`: `0-9`, then `a-z` / `A-Z` for values 10 ... 35. -/
def digitVal (c : Char) : Option Nat :=
  if '0' ≤ c ∧ c ≤ '9' then some (c.toNat - '0'.toNat)
  else if 'a' ≤ c ∧ c ≤ 'z' then some (c.toNat - 'a'.toNat + 10)
  else if 'A' ≤ c ∧ c ≤ 'Z' then some (c.toNat - 'A'.toNat + 10)
  else none

/-- Accumulate the base-`radix` value of a digit string; `none` as soon as a
character is not a digit of that radix. -/
def parseDigits (radix : Nat) : List Char → Nat → Option Nat
  | [], acc => some acc
  | c :: cs, acc =>
    match digitVal c with
    | some d => if d < radix then parseDigits radix cs (acc * radix + d) else none
    | none => none

/-- Rust `from_str_radix` on a sign-free string, for an unsigned (or
non-negative signed) target whose largest value is `bound`: the string must be
non-empty, every character a digit of the radix, and the value within bounds
(Rust reports overflow as a `ParseIntError`, here `none`). -/
def from_str_radix (bound : Nat) (s : String) (radix : Nat) : Option Nat :=
  match s.data with
  | [] => none
  | cs =>
    match parseDigits radix cs 0 with
    | some v => if v ≤ bound then some v else none
    | none => none

/-- Largest `i64` value, `2^63 - 1`. -/
def i64Max : Nat := 2 ^ 63 - 1

/-- `i64::from_str_radix` on the parser's sign-free strings. -/
def i64_from_str_radix (s : String) (radix : Nat) : Option Nat :=
  from_str_radix i64Max s radix

/-- `u64::from_str_radix`. -/
def u64_from_str_radix (s : String) (radix : Nat) : Option Nat :=
  from_str_radix (2 ^ 64 - 1) s radix

/-- `i32::from_str_radix` on the parser's sign-free strings. -/
def i32_from_str_radix (s : String) (radix : Nat) : Option Nat :=
  from_str_radix (2 ^ 31 - 1) s radix

/-- `u32::from_str_radix`. -/
def u32_from_str_radix (s : String) (radix : Nat) : Option Nat :=
  from_str_radix (2 ^ 32 - 1) s radix

/-- `u8::from_str_radix`. -/
def u8_from_str_radix (s : String) (radix : Nat) : Option Nat :=
  from_str_radix 255 s radix

/-! ## The combinator runtime

A parser reads the token list and the diagnostic buffer and either succeeds
with a value and the remaining tokens, or fails; either way it returns the
(possibly extended) buffer.  This mirrors winnow over
`Stateful<&[Token], Vec<PtxError>>`: alternatives restore the token position
on failure but never roll back the state, because `Stateful`'s checkpoint
holds only the inner stream's checkpoint. -/
def Parser (α : Type) : Type :=
  List Token → List PtxError → Option (α × List Token) × List PtxError

variable {α β σ : Type}

/-- winnow `empty.value(a)` / monadic return: succeed without consuming. -/
def Parser.pure (a : α) : Parser α := fun ts es => (some (a, ts), es)

/-- Sequencing: run `p`, then `f` on its value (winnow tuples/`flat_map`). -/
def Parser.bind (p : Parser α) (f : α → Parser β) : Parser β := fun ts es =>
  match p ts es with
  | (some (a, ts'), es') => f a ts' es'
  | (none, es') => (none, es')

/-- winnow `map`. -/
def Parser.map (f : α → β) (p : Parser α) : Parser β :=
  Parser.bind p (fun a => Parser.pure (f a))

/-- winnow `fail`. -/
def Parser.fail : Parser α := fun _ es => (none, es)

/-- winnow `any` on the token stream: pop one token. -/
def Parser.any : Parser Token := fun ts es =>
  match ts with
  | [] => (none, es)
  | t :: ts' => (some (t, ts'), es)

/-- winnow `any.verify_map(f)`: pop one token, succeed when `f` yields a
value.  All single-token parsers below are instances of this shape. -/
def Parser.verify_map (f : Token → Option α) : Parser α := fun ts es =>
  match ts with
  | [] => (none, es)
  | t :: ts' =>
    match f t with
    | some a => (some (a, ts'), es)
    | none => (none, es)

/-- Token recognizer for `Parser.tok`: the `impl Parser for Token` in
`main.rs` is `any.verify(|t| t == self)`. -/
def Parser.tok_f (t : Token) : Token → Option Unit := fun u =>
  if u = t then some () else none

/-- Match one exact token. -/
def Parser.tok (t : Token) : Parser Unit := Parser.verify_map (Parser.tok_f t)

/-- winnow `opt(p)`: `some` on success, `none` without consuming on failure
(diagnostics already pushed by the failed attempt stay, as with `Stateful`). -/
def Parser.opt (p : Parser α) : Parser (Option α) := fun ts es =>
  match p ts es with
  | (some (a, ts'), es') => (some (some a, ts'), es')
  | (none, es') => (some (none, ts), es')

/-- winnow `alt((p, q))`: try `p`; on failure try `q` from the same token
position. -/
def Parser.alt (p q : Parser α) : Parser α := fun ts es =>
  match p ts es with
  | (some r, es') => (some r, es')
  | (none, es') => q ts es'

/-- winnow `preceded(p, q)`. -/
def Parser.preceded (p : Parser α) (q : Parser β) : Parser β :=
  Parser.bind p (fun _ => q)

/-- winnow `terminated(p, q)`. -/
def Parser.terminated (p : Parser α) (q : Parser β) : Parser α :=
  Parser.bind p (fun a => Parser.bind q (fun _ => Parser.pure a))

/-- winnow `delimited(o, p, c)`. -/
def Parser.delimited (o : Parser α) (p : Parser β) (c : Parser σ) : Parser β :=
  Parser.preceded o (Parser.terminated p c)

/-- Push a diagnostic onto the stream state (`input.state.push(err)`). -/
def Parser.push (e : PtxError) : Parser Unit := fun ts es =>
  (some ((), ts), es ++ [e])

/-- `take_error(p)` from `main.rs`: the inner parser yields `Ok(v)` or
`Err((fallback, diagnostic))`; on the latter the diagnostic is pushed onto the
state and the fallback returned, so the surrounding parse goes on. -/
def take_error (p : Parser (Except (α × PtxError) α)) : Parser α := fun ts es =>
  match p ts es with
  | (some (Except.ok v, ts'), es') => (some (v, ts'), es')
  | (some (Except.error (v, e), ts'), es') => (some (v, ts'), es' ++ [e])
  | (none, es') => (none, es')

/-- Loop body of `repeat(0.., p)`: winnow's repeat stops at the first failed
iteration, and escapes with a hard error if an iteration succeeds without
consuming input ("parsers must advance").  The fuel starts above the token
count, so it never runs out on a consuming parser. -/
def Parser.repeat0_go (p : Parser α) : Nat → List Token → List PtxError →
    Option (List α × List Token) × List PtxError
  | 0, _, es => (none, es)
  | Nat.succ n, ts, es =>
    match p ts es with
    | (none, es') => (some ([], ts), es')
    | (some (a, ts'), es') =>
      if ts'.length < ts.length then
        match Parser.repeat0_go p n ts' es' with
        | (some (l, ts''), es'') => (some (a :: l, ts''), es'')
        | (none, es'') => (none, es'')
      else (none, es')

/-- winnow `repeat(0.., p)` collected into a list. -/
def Parser.repeat0 (p : Parser α) : Parser (List α) := fun ts es =>
  Parser.repeat0_go p (ts.length + 1) ts es

/-- `repeat_without_none` from `main.rs`: repeat and keep the `Some`s. -/
def repeat_without_none (p : Parser (Option α)) : Parser (List α) :=
  Parser.map (List.filterMap id) (Parser.repeat0 p)

/-- Loop of winnow `separated(min..max, p, sep)` after the first element:
keep parsing `sep` then `p` while fewer than `maxC` elements are taken;
a failure of either backtracks over the separator and ends the loop. -/
def Parser.separated_go (p : Parser α) (sep : Parser Unit) (step : σ → α → σ) :
    Nat → σ → Nat → Option Nat → List Token → List PtxError →
    Option (σ × List Token) × List PtxError
  | 0, _, _, _, _, es => (none, es)
  | Nat.succ n, acc, count, maxC, ts, es =>
    if maxC = some count then (some (acc, ts), es)
    else
      match Parser.bind sep (fun _ => p) ts es with
      | (none, es') => (some (acc, ts), es')
      | (some (a, ts'), es') =>
        if ts'.length < ts.length then
          Parser.separated_go p sep step n (step acc a) (count + 1) maxC ts' es'
        else (none, es')

/-- winnow `separated(min..max, p, sep)` with an explicit accumulator
(`Accumulate::initial` / `accumulate`).  `minC`/`maxC` are the inclusive
bounds winnow derives from the Rust range (`1..3` becomes 1 to 2: the `From`
conversion subtracts one from the exclusive end). -/
def Parser.separated (minC : Nat) (maxC : Option Nat) (p : Parser α)
    (sep : Parser Unit) (init : σ) (step : σ → α → σ) : Parser σ := fun ts es =>
  if maxC = some 0 then (some (init, ts), es)
  else
    match p ts es with
    | (none, es') => if minC = 0 then (some (init, ts), es') else (none, es')
    | (some (a, ts'), es') =>
      match Parser.separated_go p sep step (ts'.length + 1) (step init a) 1 maxC ts' es' with
      | (some (acc, ts''), es'') =>
        -- count below the minimum cannot happen once one element parsed and
        -- min ≤ 1, the only uses here (1..3 and 0..); winnow would fail then.
        (some (acc, ts''), es'')
      | (none, es'') => (none, es'')

/-! ## Token-level leaf parsers, translated from `main.rs` -/

/-- The generated `opcode_text()` projection: the textual opcode name of a
dot-keyword token that also spells an opcode.  No dot-keyword of this rule
table spells one of `mov`, `ld`, `st`, `add`, `ret`, so the projection is
`none` throughout. -/
def opcode_text (_ : Token) : Option String := none

/-- `ident` from `main.rs`: an `Ident` token, or a token whose
`opcode_text()` names an opcode. -/
def ident : Parser String :=
  Parser.verify_map (fun t =>
    match t with
    | Token.Ident s => some s
    | _ => opcode_text t)

/-- Whether the string's last character is `U` (Rust `s.ends_with('U')`). -/
def endsWithU (s : String) : Bool :=
  match s.data.getLast? with
  | some 'U' => true
  | _ => false

/-- Rust `&s[2..]` on the lexer's ASCII literal slices. -/
def dropFirst2 (s : String) : String := String.mk (s.data.drop 2)

/-- Rust `&s[..s.len()-1]` on the lexer's ASCII literal slices. -/
def dropLast1 (s : String) : String := String.mk (s.data.dropLast)

/-- Rust `&s[2..s.len()-1]`. -/
def dropFirst2Last1 (s : String) : String := String.mk ((s.data.drop 2).dropLast)

/-- The token projection of `num` in `main.rs`: a `Hex` token loses its `0x`
prefix (and a trailing `U`) and reads in radix 16; a `Decimal` token starting
with `0` reads in radix 8, otherwise 10, losing a trailing `U`.  The boolean
records whether the `U` suffix was present. -/
def num_f : Token → Option (String × Nat × Bool)
  | Token.Hex s =>
    some (if endsWithU s then (dropFirst2Last1 s, 16, true) else (dropFirst2 s, 16, false))
  | Token.Decimal s =>
    let radix := if s.data.head? = some '0' then 8 else 10
    some (if endsWithU s then (dropLast1 s, radix, true) else (s, radix, false))
  | _ => none

/-- `num` from `main.rs`: digits, radix and unsigned-suffix flag of the next
numeric token. -/
def num : Parser (String × Nat × Bool) := Parser.verify_map num_f

/-- The mapped body of `int_immediate` from `main.rs`: a leading minus takes
the signed branch (negating an `i64` parse), else a `U` suffix takes the
unsigned branch, else try `i64` first and fall back to `u64`; on a parse
error the fallback value 0 is paired with the `ParseInt` diagnostic. -/
def int_immediate_body (neg : Option Unit) (x : String × Nat × Bool) :
    Except (ImmediateValue × PtxError) ImmediateValue :=
  let (numStr, radix, is_unsigned) := x
  if neg.isSome then
    match i64_from_str_radix numStr radix with
    | some v => Except.ok (ImmediateValue.S64 (-(v : Int)))
    | none => Except.error (ImmediateValue.S64 0, PtxError.ParseInt)
  else if is_unsigned then
    match u64_from_str_radix numStr radix with
    | some v => Except.ok (ImmediateValue.U64 v)
    | none => Except.error (ImmediateValue.U64 0, PtxError.ParseInt)
  else
    match i64_from_str_radix numStr radix with
    | some v => Except.ok (ImmediateValue.S64 (v : Int))
    | none =>
      match u64_from_str_radix numStr radix with
      | some v => Except.ok (ImmediateValue.U64 v)
      | none => Except.error (ImmediateValue.U64 0, PtxError.ParseInt)

/-- `int_immediate` from `main.rs`:
`take_error((opt(Token::Minus), num).map(...))`. -/
def int_immediate : Parser ImmediateValue :=
  take_error
    (Parser.bind (Parser.opt (Parser.tok Token.Minus)) (fun neg =>
      Parser.map (int_immediate_body neg) num))

/-- `f32` from `main.rs`: an `F32` token (`0f` + 8 hex digits) decoded with
`u32::from_str_radix(&f[2..], 16)`; the value is kept as its bit pattern. -/
def f32 : Parser ImmediateValue :=
  take_error
    (Parser.verify_map (fun t =>
      match t with
      | Token.F32 s =>
        some (match u32_from_str_radix (dropFirst2 s) 16 with
          | some v => Except.ok (ImmediateValue.F32 v)
          | none => Except.error (ImmediateValue.F32 0, PtxError.ParseInt))
      | _ => none))

/-- `f64` from `main.rs`: an `F64` token (`0d` + 16 hex digits) decoded with
`u64::from_str_radix(&f[2..], 16)`. -/
def f64 : Parser ImmediateValue :=
  take_error
    (Parser.verify_map (fun t =>
      match t with
      | Token.F64 s =>
        some (match u64_from_str_radix (dropFirst2 s) 16 with
          | some v => Except.ok (ImmediateValue.F64 v)
          | none => Except.error (ImmediateValue.F64 0, PtxError.ParseInt))
      | _ => none))

/-- `s32` from `main.rs`: optional minus, then `i32::from_str_radix`
negated under the sign; fallback 0 with `ParseInt` on error.  The `U`
suffix flag is ignored (`let (text, radix, _) = x`). -/
def s32 : Parser Int :=
  take_error
    (Parser.bind (Parser.opt (Parser.tok Token.Minus)) (fun sign =>
      Parser.map (fun x =>
        let (text, radix, _) := x
        match i32_from_str_radix text radix with
        | some v =>
          Except.ok (if sign.isSome then (-(v : Int)) else (v : Int))
        | none => Except.error (0, PtxError.ParseInt)) num))

/-- `u8` from `main.rs`. -/
def u8 : Parser Nat :=
  take_error
    (Parser.map (fun x =>
      let (text, radix, _) := x
      match u8_from_str_radix text radix with
      | some v => Except.ok v
      | none => Except.error (0, PtxError.ParseInt)) num)

/-- `u32` from `main.rs`. -/
def u32 : Parser Nat :=
  take_error
    (Parser.map (fun x =>
      let (text, radix, _) := x
      match u32_from_str_radix text radix with
      | some v => Except.ok v
      | none => Except.error (0, PtxError.ParseInt)) num)

/-- `immediate_value` from `main.rs`: integer, then f32, then f64. -/
def immediate_value : Parser ImmediateValue :=
  Parser.alt int_immediate (Parser.alt f32 f64)

/-! ## Operand parsing (`ParsedOperand::parse` in `main.rs`) -/

/-- `vector_index` from `main.rs`: the vector-member suffix letter
(`x|r`, `y|g`, `z|b`, `w|a` in that match order; anything else is the
`WrongVectorElement` error). -/
def vector_index (inp : String) : Except PtxError Nat :=
  if inp = "x" ∨ inp = "r" then Except.ok 0
  else if inp = "y" ∨ inp = "g" then Except.ok 1
  else if inp = "z" ∨ inp = "b" then Except.ok 2
  else if inp = "w" ∨ inp = "a" then Except.ok 3
  else Except.error PtxError.WrongVectorElement

/-- The mapped suffix handler inside `ident_operands`: an unknown suffix
pairs the fallback `VecMember(main, 0)` with the `WrongVectorElement`
diagnostic. -/
def vec_suffix_body (main_ident : String) (suffix : String) :
    Except (ParsedOperand × PtxError) ParsedOperand :=
  match vector_index suffix with
  | Except.ok i => Except.ok (ParsedOperand.VecMember main_ident i)
  | Except.error e => Except.error (ParsedOperand.VecMember main_ident 0, e)

/-- `ident_operands` from `main.rs`: an identifier followed by `+offset`
(register plus offset), `.suffix` (vector member, via `take_error`), or
nothing (plain register). -/
def ident_operands : Parser ParsedOperand :=
  Parser.bind ident (fun main_ident =>
    Parser.alt
      (Parser.map (fun off => ParsedOperand.RegOffset main_ident off)
        (Parser.preceded (Parser.tok Token.Plus) s32))
      (Parser.alt
        (take_error
          (Parser.map (vec_suffix_body main_ident)
            (Parser.preceded (Parser.tok Token.Dot) ident)))
        (Parser.pure (ParsedOperand.Reg main_ident))))

/-- `vector_operand` from `main.rs`: `[ r1 , r2` then a dispatch on the next
token: a `[` closes a two-element pack, a `,` demands `r3 , r4 [`. -/
def vector_operand : Parser (List String) :=
  Parser.bind (Parser.tok Token.LBracket) (fun _ =>
  Parser.bind ident (fun r1 =>
  Parser.bind (Parser.tok Token.Comma) (fun _ =>
  Parser.bind ident (fun r2 =>
  Parser.bind Parser.any (fun t =>
    match t with
    | Token.LBracket => Parser.pure [r1, r2]
    | Token.Comma =>
      Parser.bind ident (fun r3 =>
      Parser.bind (Parser.tok Token.Comma) (fun _ =>
      Parser.bind ident (fun r4 =>
      Parser.map (fun _ => [r1, r2, r3, r4]) (Parser.tok Token.LBracket))))
    | _ => Parser.fail)))))

/-- `ParsedOperand::parse` from `main.rs`: identifier forms, immediates,
vector packs, in that order. -/
def ParsedOperand.parse : Parser ParsedOperand :=
  Parser.alt ident_operands
    (Parser.alt (Parser.map ParsedOperand.Imm immediate_value)
      (Parser.map ParsedOperand.VecPack vector_operand))

/-! ## Module-level directives (`version`, `target`, `address_size`) -/

/-- `shader_model` from `main.rs`, a winnow parser over the identifier text:
`("sm_", dec_uint, opt(any.verify(is_ascii_lowercase)), eof)`.  `dec_uint`
takes the maximal run of decimal digits (at least one) and fails on `u32`
overflow; `eof` then demands that at most the one optional lowercase letter
remains. -/
def shader_model (s : String) : Option (Nat × Option Char) :=
  match s.data with
  | c1 :: c2 :: c3 :: rest =>
    if c1 = 's' ∧ c2 = 'm' ∧ c3 = '_' then
      let ds := rest.takeWhile Char.isDigit
      let rest2 := rest.dropWhile Char.isDigit
      if ds = [] then none
      else
        match parseDigits 10 ds 0 with
        | none => none
        | some n =>
          if n ≤ 2 ^ 32 - 1 then
            match rest2 with
            | [] => some (n, none)
            | [c] => if c.isLower then some (n, some c) else none
            | _ => none
          else none
    else none
  | _ => none

/-- `target` from `main.rs`: `.target` then `ident.and_then(shader_model)`;
the sub-parse runs on the identifier's text as complete input. -/
def target : Parser (Nat × Option Char) :=
  Parser.preceded (Parser.tok Token.DotTarget)
    (Parser.bind ident (fun s => fun ts es =>
      match shader_model s with
      | some r => (some (r, ts), es)
      | none => (none, es)))

/-- `version` from `main.rs`: `.version` u8 `.` u8. -/
def version : Parser (Nat × Nat) :=
  Parser.bind (Parser.tok Token.DotVersion) (fun _ =>
  Parser.bind u8 (fun major =>
  Parser.bind (Parser.tok Token.Dot) (fun _ =>
  Parser.map (fun minor => (major, minor)) u8)))

/-- `u8_literal` from `main.rs`: a u8 whose value is exactly `x`. -/
def u8_literal (x : Nat) : Parser Unit := fun ts es =>
  match u8 ts es with
  | (some (v, ts'), es') => if v = x then (some ((), ts'), es') else (none, es')
  | (none, es') => (none, es')

/-- `address_size` from `main.rs`: `.address_size 64`. -/
def address_size : Parser Unit :=
  Parser.preceded (Parser.tok Token.DotAddressSize) (u8_literal 64)

/-! ## AST containers (modelled from the spec where `ast.rs` defines them) -/

/-- Modelled from the spec: `ast::Variable` (`array_init` stays empty in
this subset: `Vec::new()` at every construction site in `main.rs`). -/
structure Variable where
  align : Option Nat
  v_type : PtxType
  state_space : StateSpace
  name : String
  array_init : List Nat
deriving DecidableEq, Repr

/-- Modelled from the spec: a method is a kernel (`.entry`) or a device
function (`.func`). -/
inductive MethodName where
  | Kernel (s : String)
  | Func (s : String)
deriving DecidableEq, Repr

/-- Modelled from the spec: `ast::MethodDeclaration` as built in
`method_declaration` of `main.rs`. -/
structure MethodDeclaration where
  return_arguments : List Variable
  name : MethodName
  input_arguments : List Variable
  shared_mem : Option Nat
deriving DecidableEq, Repr

/-- Modelled from the spec: linking directives (constructor names follow the
`ast::LinkingDirective::EXTERN/VISIBLE/WEAK` constants `main.rs` uses). -/
inductive LinkingDirective where
  | EXTERN | VISIBLE | WEAK
deriving DecidableEq, Repr

/-- Modelled from the spec: tuning directives. -/
inductive TuningDirective where
  | MaxNReg (v : Nat)
  | MaxNtid (x y z : Nat)
  | ReqNtid (x y z : Nat)
  | MinNCtaPerSm (v : Nat)
deriving DecidableEq, Repr

/-- Modelled from the spec: `ast::MovDetails`; `MovDetails::new(vec, type_)`
records the (possibly vector) type the mov rule bound. -/
structure MovDetails where
  typ : PtxType
deriving DecidableEq, Repr

/-- Modelled from the spec: `ast::LdDetails` as built by the ld rule bodies
in `main.rs`. -/
structure LdDetails where
  qualifier : LdStQualifier
  state_space : StateSpace
  caching : LdCacheOperator
  typ : PtxType
  non_coherent : Bool
deriving DecidableEq, Repr

/-- Modelled from the spec: `ast::StData` as built by the st rule bodies in
`main.rs`. -/
structure StData where
  qualifier : LdStQualifier
  state_space : StateSpace
  caching : StCacheOperator
  typ : PtxType
deriving DecidableEq, Repr

/-- Modelled from the spec: integer-add details (`ast::ArithInteger`). -/
structure ArithInteger where
  type_ : ScalarType
  saturate : Bool
deriving DecidableEq, Repr

/-- Modelled from the spec: float-add details (`ast::ArithFloat`). -/
structure ArithFloat where
  type_ : ScalarType
  rounding : Option RoundingMode
  flush_to_zero : Option Bool
  saturate : Bool
deriving DecidableEq, Repr

/-- Modelled from the spec: `ast::ArithDetails`. -/
inductive ArithDetails where
  | Integer (v : ArithInteger)
  | Float (v : ArithFloat)
deriving DecidableEq, Repr

/-- Modelled from the spec: `ast::RetData`. -/
structure RetData where
  uniform : Bool
deriving DecidableEq, Repr

/-- Modelled from the spec: `ast::MovArgs`. -/
structure MovArgs where
  dst : ParsedOperand
  src : ParsedOperand
deriving DecidableEq, Repr

/-- Modelled from the spec: `ast::LdArgs`. -/
structure LdArgs where
  dst : ParsedOperand
  src : ParsedOperand
deriving DecidableEq, Repr

/-- Modelled from the spec: `ast::StArgs`. -/
structure StArgs where
  src1 : ParsedOperand
  src2 : ParsedOperand
deriving DecidableEq, Repr

/-- Modelled from the spec: `ast::AddArgs`. -/
structure AddArgs where
  dst : ParsedOperand
  src1 : ParsedOperand
  src2 : ParsedOperand
deriving DecidableEq, Repr

/-- Modelled from the spec: one `ast::Instruction` variant per opcode
family of this subset. -/
inductive Instruction where
  | Mov (data : MovDetails) (arguments : MovArgs)
  | Ld (data : LdDetails) (arguments : LdArgs)
  | St (data : StData) (arguments : StArgs)
  | Add (data : ArithDetails) (arguments : AddArgs)
  | Ret (data : RetData)
deriving DecidableEq, Repr

/-- Modelled from the spec: predicate guard `@[!]ident`. -/
structure PredAt where
  not : Bool
  label : String
deriving DecidableEq, Repr

/-- Modelled from the spec: a declaration with an optional parallel count
`<N>` (`ast::MultiVariable`). -/
structure MultiVariable where
  var : Variable
  count : Option Nat
deriving DecidableEq, Repr

/-- Modelled from the spec: statements. -/
inductive Statement where
  | Label (s : String)
  | Variable (v : MultiVariable)
  | Instruction (p : Option PredAt) (i : Instruction)
  | Block (b : List Statement)

/-- Modelled from the spec: `ast::Function` (named `PtxFunction` here since
`Function` is taken by the ambient library). -/
structure PtxFunction where
  func_directive : MethodDeclaration
  tuning : List TuningDirective
  body : Option (List Statement)

/-- Modelled from the spec: top-level directives (only method definitions in
this subset). -/
inductive Directive where
  | Method (linking : LinkingDirective) (f : PtxFunction)

/-- Modelled from the spec: `ast::Module` (named `PtxModule` here since
`Module` is taken by the ambient library); `main.rs` keeps the version pair
and the directives. -/
structure PtxModule where
  version : Nat × Nat
  directives : List Directive

/-! ## Instruction parsers

These embed the parsers `derive_parser!` generates from the rule table in
`main.rs`.  Modelled from the spec's description of the DSL: each rule
consumes its modifiers in the written order (absent optionals consume
nothing), then the operands; a rule's semantic body is translated from the
source.  Variant selection is by longest-modifier-prefix match; within each
opcode below the variants start with pairwise distinct mandatory tokens (or
none, for the fully optional variant tried last), so ordered alternation
realizes that selection. -/

/-- Store-rule state spaces: `.ss: StateSpace = { .global, .local,
.param{::func}, .shared{::cta, ::cluster} }`.  The `::`-qualified forms
select the same state space, the spec's `StateSpace` set having no finer
values. -/
def st_ss_f : Token → Option StateSpace
  | Token.DotGlobal => some StateSpace.Global
  | Token.DotLocal => some StateSpace.Local
  | Token.DotParam => some StateSpace.Param
  | Token.DotParamFunc => some StateSpace.Param
  | Token.DotShared => some StateSpace.Shared
  | Token.DotSharedCta => some StateSpace.Shared
  | Token.DotSharedCluster => some StateSpace.Shared
  | _ => none

/-- Load-rule state spaces: the store set plus `.const` and
`.param::entry`. -/
def ld_ss_f : Token → Option StateSpace
  | Token.DotConst => some StateSpace.Const
  | Token.DotParamEntry => some StateSpace.Param
  | t => st_ss_f t

/-- `.cop: RawStCacheOperator = { .wb, .cg, .cs, .wt }`. -/
def st_cop_f : Token → Option RawStCacheOperator
  | Token.DotWb => some RawStCacheOperator.Wb
  | Token.DotCg => some RawStCacheOperator.Cg
  | Token.DotCs => some RawStCacheOperator.Cs
  | Token.DotWt => some RawStCacheOperator.Wt
  | _ => none

/-- `.cop: RawLdCacheOperator = { .ca, .cg, .cs, .lu, .cv }`. -/
def ld_cop_f : Token → Option RawLdCacheOperator
  | Token.DotCa => some RawLdCacheOperator.Ca
  | Token.DotCg => some RawLdCacheOperator.Cg
  | Token.DotCs => some RawLdCacheOperator.Cs
  | Token.DotLu => some RawLdCacheOperator.Lu
  | Token.DotCv => some RawLdCacheOperator.Cv
  | _ => none

/-- `.level::eviction_priority: EvictionPriority = { .L1::evict_* }`. -/
def eviction_f : Token → Option EvictionPriority
  | Token.DotL1EvictNormal => some EvictionPriority.EvictNormal
  | Token.DotL1EvictUnchanged => some EvictionPriority.EvictUnchanged
  | Token.DotL1EvictFirst => some EvictionPriority.EvictFirst
  | Token.DotL1EvictLast => some EvictionPriority.EvictLast
  | Token.DotL1NoAllocate => some EvictionPriority.NoAllocate
  | _ => none

/-- `.level::prefetch_size: PrefetchSize = { .L2::64B, .L2::128B,
.L2::256B }`. -/
def prefetch_f : Token → Option PrefetchSize
  | Token.DotL2Prefetch64B => some PrefetchSize.B64
  | Token.DotL2Prefetch128B => some PrefetchSize.B128
  | Token.DotL2Prefetch256B => some PrefetchSize.B256
  | _ => none

/-- `.scope: MemScope = { .cta, .cluster, .gpu, .sys }`. -/
def scope_f : Token → Option MemScope
  | Token.DotCta => some MemScope.Cta
  | Token.DotCluster => some MemScope.Cluster
  | Token.DotGpu => some MemScope.Gpu
  | Token.DotSys => some MemScope.Sys
  | _ => none

/-- `.vec: VectorPrefix = { .v2, .v4 }`. -/
def vec_f : Token → Option VectorPrefix
  | Token.DotV2 => some VectorPrefix.V2
  | Token.DotV4 => some VectorPrefix.V4
  | _ => none

/-- The ld/st scalar-type set: `.type: ScalarType = { .b8 ... .f64 }`
(identical for the ld and st blocks of the rule table). -/
def ldst_type_f : Token → Option ScalarType
  | Token.DotB8 => some ScalarType.B8
  | Token.DotB16 => some ScalarType.B16
  | Token.DotB32 => some ScalarType.B32
  | Token.DotB64 => some ScalarType.B64
  | Token.DotB128 => some ScalarType.B128
  | Token.DotU8 => some ScalarType.U8
  | Token.DotU16 => some ScalarType.U16
  | Token.DotU32 => some ScalarType.U32
  | Token.DotU64 => some ScalarType.U64
  | Token.DotS8 => some ScalarType.S8
  | Token.DotS16 => some ScalarType.S16
  | Token.DotS32 => some ScalarType.S32
  | Token.DotS64 => some ScalarType.S64
  | Token.DotF32 => some ScalarType.F32
  | Token.DotF64 => some ScalarType.F64
  | _ => none

/-- Memory-reference operand slot `[a]` of the rule skeletons. -/
def mem_operand : Parser ParsedOperand :=
  Parser.delimited (Parser.tok Token.LBracket) ParsedOperand.parse
    (Parser.tok Token.RBracket)

/-- The first st rule:
`st{.weak}{.ss}{.cop}{.level::eviction_priority}{.level::cache_hint}{.vec}.type [a], b{, cache_policy}`;
body from `main.rs` (defaults `Weak` / `Generic` / `Wb`, `Todo` on the
eviction-priority, cache-hint or cache-policy extras). -/
def st_variant1 : Parser Instruction :=
  Parser.bind (Parser.opt (Parser.tok Token.DotWeak)) (fun w =>
  Parser.bind (Parser.opt (Parser.verify_map st_ss_f)) (fun ss =>
  Parser.bind (Parser.opt (Parser.verify_map st_cop_f)) (fun cop =>
  Parser.bind (Parser.opt (Parser.verify_map eviction_f)) (fun level_eviction_priority =>
  Parser.bind (Parser.opt (Parser.tok Token.DotL2CacheHint)) (fun level_cache_hint =>
  Parser.bind (Parser.opt (Parser.verify_map vec_f)) (fun vec =>
  Parser.bind (Parser.verify_map ldst_type_f) (fun type_ =>
  Parser.bind mem_operand (fun a =>
  Parser.bind (Parser.tok Token.Comma) (fun _ =>
  Parser.bind ParsedOperand.parse (fun b =>
  Parser.bind (Parser.opt (Parser.preceded (Parser.tok Token.Comma) ParsedOperand.parse))
    (fun cache_policy =>
  Parser.bind
    (if level_eviction_priority.isSome || level_cache_hint.isSome || cache_policy.isSome
      then Parser.push PtxError.Todo else Parser.pure ()) (fun _ =>
  let weak := w.map (fun _ => RawLdStQualifier.Weak)
  Parser.pure (Instruction.St
    { qualifier := (weak.getD RawLdStQualifier.Weak).into
      state_space := ss.getD StateSpace.Generic
      caching := (cop.getD RawStCacheOperator.Wb).into
      typ := PtxType.maybe_vector vec type_ }
    { src1 := a, src2 := b })))))))))))))

/-- `st.volatile{.ss}{.vec}.type [a], b`; body from `main.rs`. -/
def st_volatile : Parser Instruction :=
  Parser.bind (Parser.tok Token.DotVolatile) (fun _ =>
  Parser.bind (Parser.opt (Parser.verify_map st_ss_f)) (fun ss =>
  Parser.bind (Parser.opt (Parser.verify_map vec_f)) (fun vec =>
  Parser.bind (Parser.verify_map ldst_type_f) (fun type_ =>
  Parser.bind mem_operand (fun a =>
  Parser.bind (Parser.tok Token.Comma) (fun _ =>
  Parser.map (fun b => Instruction.St
    { qualifier := RawLdStQualifier.Volatile.into
      state_space := ss.getD StateSpace.Generic
      caching := StCacheOperator.Writeback
      typ := PtxType.maybe_vector vec type_ }
    { src1 := a, src2 := b }) ParsedOperand.parse))))))

/-- `st.relaxed.scope{.ss}{.level::eviction_priority}{.level::cache_hint}{.vec}.type [a], b{, cache_policy}`;
body from `main.rs`. -/
def st_relaxed : Parser Instruction :=
  Parser.bind (Parser.tok Token.DotRelaxed) (fun _ =>
  Parser.bind (Parser.verify_map scope_f) (fun scope =>
  Parser.bind (Parser.opt (Parser.verify_map st_ss_f)) (fun ss =>
  Parser.bind (Parser.opt (Parser.verify_map eviction_f)) (fun level_eviction_priority =>
  Parser.bind (Parser.opt (Parser.tok Token.DotL2CacheHint)) (fun level_cache_hint =>
  Parser.bind (Parser.opt (Parser.verify_map vec_f)) (fun vec =>
  Parser.bind (Parser.verify_map ldst_type_f) (fun type_ =>
  Parser.bind mem_operand (fun a =>
  Parser.bind (Parser.tok Token.Comma) (fun _ =>
  Parser.bind ParsedOperand.parse (fun b =>
  Parser.bind (Parser.opt (Parser.preceded (Parser.tok Token.Comma) ParsedOperand.parse))
    (fun cache_policy =>
  Parser.bind
    (if level_eviction_priority.isSome || level_cache_hint.isSome || cache_policy.isSome
      then Parser.push PtxError.Todo else Parser.pure ()) (fun _ =>
  Parser.pure (Instruction.St
    { qualifier := LdStQualifier.Relaxed scope
      state_space := ss.getD StateSpace.Generic
      caching := StCacheOperator.Writeback
      typ := PtxType.maybe_vector vec type_ }
    { src1 := a, src2 := b })))))))))))))

/-- `st.release.scope{.ss}{.level::eviction_priority}{.level::cache_hint}{.vec}.type [a], b{, cache_policy}`;
body from `main.rs`. -/
def st_release : Parser Instruction :=
  Parser.bind (Parser.tok Token.DotRelease) (fun _ =>
  Parser.bind (Parser.verify_map scope_f) (fun scope =>
  Parser.bind (Parser.opt (Parser.verify_map st_ss_f)) (fun ss =>
  Parser.bind (Parser.opt (Parser.verify_map eviction_f)) (fun level_eviction_priority =>
  Parser.bind (Parser.opt (Parser.tok Token.DotL2CacheHint)) (fun level_cache_hint =>
  Parser.bind (Parser.opt (Parser.verify_map vec_f)) (fun vec =>
  Parser.bind (Parser.verify_map ldst_type_f) (fun type_ =>
  Parser.bind mem_operand (fun a =>
  Parser.bind (Parser.tok Token.Comma) (fun _ =>
  Parser.bind ParsedOperand.parse (fun b =>
  Parser.bind (Parser.opt (Parser.preceded (Parser.tok Token.Comma) ParsedOperand.parse))
    (fun cache_policy =>
  Parser.bind
    (if level_eviction_priority.isSome || level_cache_hint.isSome || cache_policy.isSome
      then Parser.push PtxError.Todo else Parser.pure ()) (fun _ =>
  Parser.pure (Instruction.St
    { qualifier := LdStQualifier.Release scope
      state_space := ss.getD StateSpace.Generic
      caching := StCacheOperator.Writeback
      typ := PtxType.maybe_vector vec type_ }
    { src1 := a, src2 := b })))))))))))))

/-- `st.mmio.relaxed.sys{.global}.type [a], b`; body from `main.rs` (always
pushes `Todo`). -/
def st_mmio : Parser Instruction :=
  Parser.bind (Parser.tok Token.DotMmio) (fun _ =>
  Parser.bind (Parser.tok Token.DotRelaxed) (fun _ =>
  Parser.bind (Parser.tok Token.DotSys) (fun _ =>
  Parser.bind (Parser.opt (Parser.tok Token.DotGlobal)) (fun g =>
  Parser.bind (Parser.verify_map ldst_type_f) (fun type_ =>
  Parser.bind mem_operand (fun a =>
  Parser.bind (Parser.tok Token.Comma) (fun _ =>
  Parser.bind ParsedOperand.parse (fun b =>
  Parser.bind (Parser.push PtxError.Todo) (fun _ =>
  let globalSS := g.map (fun _ => StateSpace.Global)
  Parser.pure (Instruction.St
    { qualifier := LdStQualifier.Relaxed MemScope.Sys
      state_space := globalSS.getD StateSpace.Generic
      caching := StCacheOperator.Writeback
      typ := PtxType.Scalar type_ }
    { src1 := a, src2 := b }))))))))))

/-- The st opcode parser: the variants with a distinguishing mandatory first
modifier, then the fully optional first rule. -/
def st_inst : Parser Instruction :=
  Parser.alt st_volatile (Parser.alt st_relaxed (Parser.alt st_release
    (Parser.alt st_mmio st_variant1)))

/-- The first ld rule:
`ld{.weak}{.ss}{.cop}{.level::eviction_priority}{.level::cache_hint}{.level::prefetch_size}{.vec}.type d, [a]{.unified}{, cache_policy}`;
body from `main.rs` (defaults `Weak` / `Generic` / `Ca`). -/
def ld_variant1 : Parser Instruction :=
  Parser.bind (Parser.opt (Parser.tok Token.DotWeak)) (fun w =>
  Parser.bind (Parser.opt (Parser.verify_map ld_ss_f)) (fun ss =>
  Parser.bind (Parser.opt (Parser.verify_map ld_cop_f)) (fun cop =>
  Parser.bind (Parser.opt (Parser.verify_map eviction_f)) (fun level_eviction_priority =>
  Parser.bind (Parser.opt (Parser.tok Token.DotL2CacheHint)) (fun level_cache_hint =>
  Parser.bind (Parser.opt (Parser.verify_map prefetch_f)) (fun level_prefetch_size =>
  Parser.bind (Parser.opt (Parser.verify_map vec_f)) (fun vec =>
  Parser.bind (Parser.verify_map ldst_type_f) (fun type_ =>
  Parser.bind ParsedOperand.parse (fun d =>
  Parser.bind (Parser.tok Token.Comma) (fun _ =>
  Parser.bind mem_operand (fun a =>
  Parser.bind (Parser.opt (Parser.tok Token.DotUnified)) (fun unified =>
  Parser.bind (Parser.opt (Parser.preceded (Parser.tok Token.Comma) ParsedOperand.parse))
    (fun cache_policy =>
  Parser.bind
    (if level_eviction_priority.isSome || level_cache_hint.isSome
        || level_prefetch_size.isSome || unified.isSome || cache_policy.isSome
      then Parser.push PtxError.Todo else Parser.pure ()) (fun _ =>
  let weak := w.map (fun _ => RawLdStQualifier.Weak)
  Parser.pure (Instruction.Ld
    { qualifier := (weak.getD RawLdStQualifier.Weak).into
      state_space := ss.getD StateSpace.Generic
      caching := (cop.getD RawLdCacheOperator.Ca).into
      typ := PtxType.maybe_vector vec type_
      non_coherent := false }
    { dst := d, src := a })))))))))))))))

/-- `ld.volatile{.ss}{.level::prefetch_size}{.vec}.type d, [a]`; body from
`main.rs`. -/
def ld_volatile : Parser Instruction :=
  Parser.bind (Parser.tok Token.DotVolatile) (fun _ =>
  Parser.bind (Parser.opt (Parser.verify_map ld_ss_f)) (fun ss =>
  Parser.bind (Parser.opt (Parser.verify_map prefetch_f)) (fun level_prefetch_size =>
  Parser.bind (Parser.opt (Parser.verify_map vec_f)) (fun vec =>
  Parser.bind (Parser.verify_map ldst_type_f) (fun type_ =>
  Parser.bind ParsedOperand.parse (fun d =>
  Parser.bind (Parser.tok Token.Comma) (fun _ =>
  Parser.bind mem_operand (fun a =>
  Parser.bind
    (if level_prefetch_size.isSome then Parser.push PtxError.Todo else Parser.pure ())
    (fun _ =>
  Parser.pure (Instruction.Ld
    { qualifier := RawLdStQualifier.Volatile.into
      state_space := ss.getD StateSpace.Generic
      caching := LdCacheOperator.Cached
      typ := PtxType.maybe_vector vec type_
      non_coherent := false }
    { dst := d, src := a }))))))))))

/-- `ld.relaxed.scope{.ss}{.level::eviction_priority}{.level::cache_hint}{.level::prefetch_size}{.vec}.type d, [a]{, cache_policy}`;
body from `main.rs`. -/
def ld_relaxed : Parser Instruction :=
  Parser.bind (Parser.tok Token.DotRelaxed) (fun _ =>
  Parser.bind (Parser.verify_map scope_f) (fun scope =>
  Parser.bind (Parser.opt (Parser.verify_map ld_ss_f)) (fun ss =>
  Parser.bind (Parser.opt (Parser.verify_map eviction_f)) (fun level_eviction_priority =>
  Parser.bind (Parser.opt (Parser.tok Token.DotL2CacheHint)) (fun level_cache_hint =>
  Parser.bind (Parser.opt (Parser.verify_map prefetch_f)) (fun level_prefetch_size =>
  Parser.bind (Parser.opt (Parser.verify_map vec_f)) (fun vec =>
  Parser.bind (Parser.verify_map ldst_type_f) (fun type_ =>
  Parser.bind ParsedOperand.parse (fun d =>
  Parser.bind (Parser.tok Token.Comma) (fun _ =>
  Parser.bind mem_operand (fun a =>
  Parser.bind (Parser.opt (Parser.preceded (Parser.tok Token.Comma) ParsedOperand.parse))
    (fun cache_policy =>
  Parser.bind
    (if level_eviction_priority.isSome || level_cache_hint.isSome
        || level_prefetch_size.isSome || cache_policy.isSome
      then Parser.push PtxError.Todo else Parser.pure ()) (fun _ =>
  Parser.pure (Instruction.Ld
    { qualifier := LdStQualifier.Relaxed scope
      state_space := ss.getD StateSpace.Generic
      caching := LdCacheOperator.Cached
      typ := PtxType.maybe_vector vec type_
      non_coherent := false }
    { dst := d, src := a }))))))))))))))

/-- `ld.acquire.scope{...}.type d, [a]{, cache_policy}`; body from
`main.rs`. -/
def ld_acquire : Parser Instruction :=
  Parser.bind (Parser.tok Token.DotAcquire) (fun _ =>
  Parser.bind (Parser.verify_map scope_f) (fun scope =>
  Parser.bind (Parser.opt (Parser.verify_map ld_ss_f)) (fun ss =>
  Parser.bind (Parser.opt (Parser.verify_map eviction_f)) (fun level_eviction_priority =>
  Parser.bind (Parser.opt (Parser.tok Token.DotL2CacheHint)) (fun level_cache_hint =>
  Parser.bind (Parser.opt (Parser.verify_map prefetch_f)) (fun level_prefetch_size =>
  Parser.bind (Parser.opt (Parser.verify_map vec_f)) (fun vec =>
  Parser.bind (Parser.verify_map ldst_type_f) (fun type_ =>
  Parser.bind ParsedOperand.parse (fun d =>
  Parser.bind (Parser.tok Token.Comma) (fun _ =>
  Parser.bind mem_operand (fun a =>
  Parser.bind (Parser.opt (Parser.preceded (Parser.tok Token.Comma) ParsedOperand.parse))
    (fun cache_policy =>
  Parser.bind
    (if level_eviction_priority.isSome || level_cache_hint.isSome
        || level_prefetch_size.isSome || cache_policy.isSome
      then Parser.push PtxError.Todo else Parser.pure ()) (fun _ =>
  Parser.pure (Instruction.Ld
    { qualifier := LdStQualifier.Acquire scope
      state_space := ss.getD StateSpace.Generic
      caching := LdCacheOperator.Cached
      typ := PtxType.maybe_vector vec type_
      non_coherent := false }
    { dst := d, src := a }))))))))))))))

/-- `ld.mmio.relaxed.sys{.global}.type d, [a]`; body from `main.rs` (always
pushes `Todo`). -/
def ld_mmio : Parser Instruction :=
  Parser.bind (Parser.tok Token.DotMmio) (fun _ =>
  Parser.bind (Parser.tok Token.DotRelaxed) (fun _ =>
  Parser.bind (Parser.tok Token.DotSys) (fun _ =>
  Parser.bind (Parser.opt (Parser.tok Token.DotGlobal)) (fun g =>
  Parser.bind (Parser.verify_map ldst_type_f) (fun type_ =>
  Parser.bind ParsedOperand.parse (fun d =>
  Parser.bind (Parser.tok Token.Comma) (fun _ =>
  Parser.bind mem_operand (fun a =>
  Parser.bind (Parser.push PtxError.Todo) (fun _ =>
  let globalSS := g.map (fun _ => StateSpace.Global)
  Parser.pure (Instruction.Ld
    { qualifier := LdStQualifier.Relaxed MemScope.Sys
      state_space := globalSS.getD StateSpace.Generic
      caching := LdCacheOperator.Cached
      typ := PtxType.Scalar type_
      non_coherent := false }
    { dst := d, src := a }))))))))))

/-- The ld opcode parser. -/
def ld_inst : Parser Instruction :=
  Parser.alt ld_volatile (Parser.alt ld_relaxed (Parser.alt ld_acquire
    (Parser.alt ld_mmio ld_variant1)))

/-- The mov scalar-type set (`.pred`, `.b16 ... .f64`). -/
def mov_type_f : Token → Option ScalarType
  | Token.DotPred => some ScalarType.Pred
  | Token.DotB16 => some ScalarType.B16
  | Token.DotB32 => some ScalarType.B32
  | Token.DotB64 => some ScalarType.B64
  | Token.DotU16 => some ScalarType.U16
  | Token.DotU32 => some ScalarType.U32
  | Token.DotU64 => some ScalarType.U64
  | Token.DotS16 => some ScalarType.S16
  | Token.DotS32 => some ScalarType.S32
  | Token.DotS64 => some ScalarType.S64
  | Token.DotF32 => some ScalarType.F32
  | Token.DotF64 => some ScalarType.F64
  | _ => none

/-- `mov{.vec}.type d, a`; body from `main.rs`
(`MovDetails::new(vec, type_)`). -/
def mov_inst : Parser Instruction :=
  Parser.bind (Parser.opt (Parser.verify_map vec_f)) (fun vec =>
  Parser.bind (Parser.verify_map mov_type_f) (fun type_ =>
  Parser.bind ParsedOperand.parse (fun d =>
  Parser.bind (Parser.tok Token.Comma) (fun _ =>
  Parser.bind ParsedOperand.parse (fun a =>
  Parser.pure (Instruction.Mov
    { typ := PtxType.maybe_vector vec type_ }
    { dst := d, src := a }))))))

/-- The integer-add scalar-type set of the first add rule. -/
def add_int_type_f : Token → Option ScalarType
  | Token.DotU16 => some ScalarType.U16
  | Token.DotU32 => some ScalarType.U32
  | Token.DotU64 => some ScalarType.U64
  | Token.DotS16 => some ScalarType.S16
  | Token.DotS64 => some ScalarType.S64
  | Token.DotU16x2 => some ScalarType.U16x2
  | Token.DotS16x2 => some ScalarType.S16x2
  | _ => none

/-- The three positional add operands `d, a, b`. -/
def add_operands : Parser (ParsedOperand × ParsedOperand × ParsedOperand) :=
  Parser.bind ParsedOperand.parse (fun d =>
  Parser.bind (Parser.tok Token.Comma) (fun _ =>
  Parser.bind ParsedOperand.parse (fun a =>
  Parser.bind (Parser.tok Token.Comma) (fun _ =>
  Parser.bind ParsedOperand.parse (fun b =>
  Parser.pure (d, a, b))))))

/-- `add.type d, a, b` (integer set); body from `main.rs`
(`saturate: false`). -/
def add_int : Parser Instruction :=
  Parser.bind (Parser.verify_map add_int_type_f) (fun type_ =>
  Parser.bind add_operands (fun ops =>
  Parser.pure (Instruction.Add
    (ArithDetails.Integer { type_ := type_, saturate := false })
    { dst := ops.1, src1 := ops.2.1, src2 := ops.2.2 })))

/-- `add{.sat}.s32 d, a, b`; body from `main.rs`. -/
def add_sat_s32 : Parser Instruction :=
  Parser.bind (Parser.opt (Parser.tok Token.DotSat)) (fun sat =>
  Parser.bind (Parser.tok Token.DotS32) (fun _ =>
  Parser.bind add_operands (fun ops =>
  Parser.pure (Instruction.Add
    (ArithDetails.Integer { type_ := ScalarType.S32, saturate := sat.isSome })
    { dst := ops.1, src1 := ops.2.1, src2 := ops.2.2 }))))

/-- `.rnd: RawFloatRounding = { .rn, .rz, .rm, .rp }` (f32/f64 block). -/
def rnd_f : Token → Option RawFloatRounding
  | Token.DotRn => some RawFloatRounding.Rn
  | Token.DotRz => some RawFloatRounding.Rz
  | Token.DotRm => some RawFloatRounding.Rm
  | Token.DotRp => some RawFloatRounding.Rp
  | _ => none

/-- `.rnd: RawFloatRounding = { .rn }` (half-precision block). -/
def rnd_half_f : Token → Option RawFloatRounding
  | Token.DotRn => some RawFloatRounding.Rn
  | _ => none

/-- `add{.rnd}{.ftz}{.sat}.f32 d, a, b`; body from `main.rs`. -/
def add_f32 : Parser Instruction :=
  Parser.bind (Parser.opt (Parser.verify_map rnd_f)) (fun rnd =>
  Parser.bind (Parser.opt (Parser.tok Token.DotFtz)) (fun ftz =>
  Parser.bind (Parser.opt (Parser.tok Token.DotSat)) (fun sat =>
  Parser.bind (Parser.tok Token.DotF32) (fun _ =>
  Parser.bind add_operands (fun ops =>
  Parser.pure (Instruction.Add
    (ArithDetails.Float
      { type_ := ScalarType.F32,
        rounding := rnd.map RawFloatRounding.into,
        flush_to_zero := some ftz.isSome,
        saturate := sat.isSome })
    { dst := ops.1, src1 := ops.2.1, src2 := ops.2.2 }))))))

/-- `add{.rnd}.f64 d, a, b`; body from `main.rs`. -/
def add_f64 : Parser Instruction :=
  Parser.bind (Parser.opt (Parser.verify_map rnd_f)) (fun rnd =>
  Parser.bind (Parser.tok Token.DotF64) (fun _ =>
  Parser.bind add_operands (fun ops =>
  Parser.pure (Instruction.Add
    (ArithDetails.Float
      { type_ := ScalarType.F64,
        rounding := rnd.map RawFloatRounding.into,
        flush_to_zero := none,
        saturate := false })
    { dst := ops.1, src1 := ops.2.1, src2 := ops.2.2 }))))

/-- `add{.rnd}{.ftz}{.sat}.f16 d, a, b`; body from `main.rs`. -/
def add_f16 : Parser Instruction :=
  Parser.bind (Parser.opt (Parser.verify_map rnd_half_f)) (fun rnd =>
  Parser.bind (Parser.opt (Parser.tok Token.DotFtz)) (fun ftz =>
  Parser.bind (Parser.opt (Parser.tok Token.DotSat)) (fun sat =>
  Parser.bind (Parser.tok Token.DotF16) (fun _ =>
  Parser.bind add_operands (fun ops =>
  Parser.pure (Instruction.Add
    (ArithDetails.Float
      { type_ := ScalarType.F16,
        rounding := rnd.map RawFloatRounding.into,
        flush_to_zero := some ftz.isSome,
        saturate := sat.isSome })
    { dst := ops.1, src1 := ops.2.1, src2 := ops.2.2 }))))))

/-- `add{.rnd}{.ftz}{.sat}.f16x2 d, a, b`; body from `main.rs`. -/
def add_f16x2 : Parser Instruction :=
  Parser.bind (Parser.opt (Parser.verify_map rnd_half_f)) (fun rnd =>
  Parser.bind (Parser.opt (Parser.tok Token.DotFtz)) (fun ftz =>
  Parser.bind (Parser.opt (Parser.tok Token.DotSat)) (fun sat =>
  Parser.bind (Parser.tok Token.DotF16x2) (fun _ =>
  Parser.bind add_operands (fun ops =>
  Parser.pure (Instruction.Add
    (ArithDetails.Float
      { type_ := ScalarType.F16x2,
        rounding := rnd.map RawFloatRounding.into,
        flush_to_zero := some ftz.isSome,
        saturate := sat.isSome })
    { dst := ops.1, src1 := ops.2.1, src2 := ops.2.2 }))))))

/-- `add{.rnd}.bf16 d, a, b`; body from `main.rs`. -/
def add_bf16 : Parser Instruction :=
  Parser.bind (Parser.opt (Parser.verify_map rnd_half_f)) (fun rnd =>
  Parser.bind (Parser.tok Token.DotBF16) (fun _ =>
  Parser.bind add_operands (fun ops =>
  Parser.pure (Instruction.Add
    (ArithDetails.Float
      { type_ := ScalarType.BF16,
        rounding := rnd.map RawFloatRounding.into,
        flush_to_zero := none,
        saturate := false })
    { dst := ops.1, src1 := ops.2.1, src2 := ops.2.2 }))))

/-- `add{.rnd}.bf16x2 d, a, b`; body from `main.rs`. -/
def add_bf16x2 : Parser Instruction :=
  Parser.bind (Parser.opt (Parser.verify_map rnd_half_f)) (fun rnd =>
  Parser.bind (Parser.tok Token.DotBF16x2) (fun _ =>
  Parser.bind add_operands (fun ops =>
  Parser.pure (Instruction.Add
    (ArithDetails.Float
      { type_ := ScalarType.BF16x2,
        rounding := rnd.map RawFloatRounding.into,
        flush_to_zero := none,
        saturate := false })
    { dst := ops.1, src1 := ops.2.1, src2 := ops.2.2 }))))

/-- The add opcode parser. -/
def add_inst : Parser Instruction :=
  Parser.alt add_int (Parser.alt add_sat_s32 (Parser.alt add_f32
    (Parser.alt add_f64 (Parser.alt add_f16 (Parser.alt add_f16x2
      (Parser.alt add_bf16 add_bf16x2))))))

/-- `ret{.uni}`; body from `main.rs`. -/
def ret_inst : Parser Instruction :=
  Parser.map (fun uni => Instruction.Ret { uniform := uni.isSome })
    (Parser.opt (Parser.tok Token.DotUni))

/-- Opcode dispatch of the generated instruction parser: the opcode lexes as
an identifier and selects the per-opcode parser. -/
def parse_instruction : Parser Instruction :=
  Parser.bind ident (fun opcode =>
    if opcode = "mov" then mov_inst
    else if opcode = "st" then st_inst
    else if opcode = "ld" then ld_inst
    else if opcode = "add" then add_inst
    else if opcode = "ret" then ret_inst
    else Parser.fail)

/-! ## Statements, functions and the module parser (translated from
`main.rs`) -/

/-- `pred_at` from `main.rs`: `@` optional `!` identifier. -/
def pred_at : Parser PredAt :=
  Parser.bind (Parser.tok Token.At) (fun _ =>
  Parser.bind (Parser.opt (Parser.tok Token.Not)) (fun n =>
  Parser.map (fun l => { not := n.isSome, label := l }) ident))

/-- `predicated_instruction` from `main.rs`. -/
def predicated_instruction : Parser Statement :=
  Parser.bind (Parser.opt pred_at) (fun p =>
  Parser.bind parse_instruction (fun i =>
  Parser.map (fun _ => Statement.Instruction p i) (Parser.tok Token.Semicolon)))

/-- `label` from `main.rs`: `ident :`. -/
def label : Parser Statement :=
  Parser.map Statement.Label (Parser.terminated ident (Parser.tok Token.Colon))

/-- `ident_literal(s)` from `main.rs`: an `Ident` token with exactly the
text `s`. -/
def ident_literal (s : String) : Parser Unit :=
  Parser.verify_map (fun t =>
    match t with
    | Token.Ident s2 => if s2 = s then some () else none
    | _ => none)

/-- `pragma` from `main.rs`: `.pragma "..." ;`, consumed and discarded. -/
def pragma : Parser Unit :=
  Parser.bind (Parser.tok Token.DotPragma) (fun _ =>
  Parser.bind (Parser.tok Token.StringLit) (fun _ =>
  Parser.map (fun _ => ()) (Parser.tok Token.Semicolon)))

/-- `debug_directive` from `main.rs`: a `.loc` line, consumed and
discarded. -/
def debug_directive : Parser Unit :=
  Parser.bind (Parser.tok Token.DotLoc) (fun _ =>
  Parser.bind u32 (fun _ =>
  Parser.bind u32 (fun _ =>
  Parser.bind u32 (fun _ =>
  Parser.map (fun _ => ())
    (Parser.opt
      (Parser.bind (Parser.tok Token.Comma) (fun _ =>
      Parser.bind (ident_literal "function_name") (fun _ =>
      Parser.bind ident (fun _ =>
      Parser.bind Parser.any (fun t =>
        match t with
        | Token.Comma =>
          Parser.bind (ident_literal "inlined_at") (fun _ =>
          Parser.bind u32 (fun _ =>
          Parser.bind u32 (fun _ =>
          Parser.map (fun _ => ()) u32)))
        | Token.Plus =>
          Parser.bind u32 (fun _ =>
          Parser.bind (Parser.tok Token.Comma) (fun _ =>
          Parser.bind (ident_literal "inlined_at") (fun _ =>
          Parser.bind u32 (fun _ =>
          Parser.bind u32 (fun _ =>
          Parser.map (fun _ => ()) u32)))))
        | _ => Parser.fail))))))))))

/-- `align` from `main.rs`: `.align` u32. -/
def align : Parser Nat := Parser.preceded (Parser.tok Token.DotAlign) u32

/-- `scalar_type` from `main.rs`: the full scalar-type token match. -/
def scalar_type_f : Token → Option ScalarType
  | Token.DotS8 => some ScalarType.S8
  | Token.DotS16 => some ScalarType.S16
  | Token.DotS16x2 => some ScalarType.S16x2
  | Token.DotS32 => some ScalarType.S32
  | Token.DotS64 => some ScalarType.S64
  | Token.DotU8 => some ScalarType.U8
  | Token.DotU16 => some ScalarType.U16
  | Token.DotU16x2 => some ScalarType.U16x2
  | Token.DotU32 => some ScalarType.U32
  | Token.DotU64 => some ScalarType.U64
  | Token.DotB8 => some ScalarType.B8
  | Token.DotB16 => some ScalarType.B16
  | Token.DotB32 => some ScalarType.B32
  | Token.DotB64 => some ScalarType.B64
  | Token.DotB128 => some ScalarType.B128
  | Token.DotPred => some ScalarType.Pred
  | Token.DotF16 => some ScalarType.F16
  | Token.DotF16x2 => some ScalarType.F16x2
  | Token.DotF32 => some ScalarType.F32
  | Token.DotF64 => some ScalarType.F64
  | Token.DotBF16 => some ScalarType.BF16
  | Token.DotBF16x2 => some ScalarType.BF16x2
  | _ => none

/-- `scalar_vector_type` from `main.rs`: optional `.v2`/`.v4`, then a
scalar type. -/
def scalar_vector_type : Parser PtxType :=
  Parser.bind (Parser.opt (Parser.verify_map vec_f)) (fun v =>
  Parser.map (fun s => PtxType.maybe_vector v s) (Parser.verify_map scalar_type_f))

/-- `variable_scalar_or_vector` from `main.rs`. -/
def variable_scalar_or_vector (state_space : StateSpace) : Parser Variable :=
  Parser.bind (Parser.opt align) (fun al =>
  Parser.bind scalar_vector_type (fun vt =>
  Parser.map (fun nm =>
    { align := al, v_type := vt, state_space := state_space, name := nm,
      array_init := [] }) ident))

/-- `variable` from `main.rs` (a Lean keyword, hence the `_decl` suffix):
dispatch on the state-space token. -/
def variable_decl : Parser Variable :=
  Parser.bind Parser.any (fun t =>
    match t with
    | Token.DotReg => variable_scalar_or_vector StateSpace.Reg
    | Token.DotLocal => variable_scalar_or_vector StateSpace.Local
    | Token.DotParam => variable_scalar_or_vector StateSpace.Param
    | Token.DotShared => variable_scalar_or_vector StateSpace.Shared
    | _ => Parser.fail)

/-- `multi_variable` from `main.rs`: a variable, an optional `<N>` count,
`;`. -/
def multi_variable : Parser Statement :=
  Parser.bind variable_decl (fun var =>
  Parser.bind (Parser.opt (Parser.delimited (Parser.tok Token.Lt) u32 (Parser.tok Token.Gt)))
    (fun count =>
  Parser.map (fun _ => Statement.Variable { var := var, count := count })
    (Parser.tok Token.Semicolon)))

/-- `statement` / `block_statement` from `main.rs`, with explicit fuel for
the block nesting (each level consumes at least the opening `{`, and every
caller passes at least the token count, so the fuel never runs out on real
input). -/
def statement : Nat → Parser (Option Statement)
  | 0 => Parser.fail
  | Nat.succ n =>
    Parser.alt (Parser.map some label)
    (Parser.alt (Parser.map (fun _ => none) debug_directive)
    (Parser.alt (Parser.map some multi_variable)
    (Parser.alt (Parser.map some predicated_instruction)
    (Parser.alt (Parser.map (fun _ => none) pragma)
      (Parser.map (fun b => some (Statement.Block b))
        (Parser.delimited (Parser.tok Token.LBrace)
          (repeat_without_none (statement n)) (Parser.tok Token.RBrace)))))))

/-- `function_body` from `main.rs`: `{ statements }` or a bare `;` for a
forward declaration. -/
def function_body : Parser (Option (List Statement)) := fun ts es =>
  match ts with
  | Token.LBrace :: ts' =>
    (Parser.map some
      (Parser.terminated (repeat_without_none (statement ts.length))
        (Parser.tok Token.RBrace))) ts' es
  | Token.Semicolon :: ts' => (some (none, ts'), es)
  | _ => (none, es)

/-- The `Tuple3AccumulateU32` accumulator from `main.rs`: the first three
values land in the three slots (initially all 1). -/
def tuple3_acc_step : (Nat × (Nat × Nat × Nat)) → Nat → (Nat × (Nat × Nat × Nat))
  | (0, (_, y, z)), value => (1, (value, y, z))
  | (1, (x, _, z)), value => (2, (x, value, z))
  | (2, (x, y, _)), value => (3, (x, y, value))
  | (i, v), _ => (i, v)

/-- `tuple1to3_u32` from `main.rs`:
`separated(1..3, u32, Token::Comma)` into `Tuple3AccumulateU32`.  winnow
turns the Rust range `1..3` into the inclusive bounds 1 to 2 (the range
conversion subtracts one from the exclusive end), so at most two components
are consumed. -/
def tuple1to3_u32 : Parser (Nat × Nat × Nat) :=
  Parser.map (fun acc => acc.2)
    (Parser.separated 1 (some 2) u32 (Parser.tok Token.Comma)
      (0, (1, 1, 1)) tuple3_acc_step)

/-- `tuning_directive` from `main.rs`. -/
def tuning_directive : Parser TuningDirective :=
  Parser.bind Parser.any (fun t =>
    match t with
    | Token.DotMaxnreg => Parser.map TuningDirective.MaxNReg u32
    | Token.DotMaxntid =>
      Parser.map (fun v => TuningDirective.MaxNtid v.1 v.2.1 v.2.2) tuple1to3_u32
    | Token.DotReqntid =>
      Parser.map (fun v => TuningDirective.ReqNtid v.1 v.2.1 v.2.2) tuple1to3_u32
    | Token.DotMinnctapersm => Parser.map TuningDirective.MinNCtaPerSm u32
    | _ => Parser.fail)

/-- `linking_directives` from `main.rs`. -/
def linking_directives : Parser LinkingDirective :=
  Parser.bind Parser.any (fun t =>
    match t with
    | Token.DotExtern => Parser.pure LinkingDirective.EXTERN
    | Token.DotVisible => Parser.pure LinkingDirective.VISIBLE
    | Token.DotWeak => Parser.pure LinkingDirective.WEAK
    | _ => Parser.fail)

/-- `kernel_input` from `main.rs`. -/
def kernel_input : Parser Variable :=
  Parser.preceded (Parser.tok Token.DotParam)
    (variable_scalar_or_vector StateSpace.Param)

/-- `fn_input` from `main.rs`. -/
def fn_input : Parser Variable :=
  Parser.bind Parser.any (fun t =>
    match t with
    | Token.DotParam => variable_scalar_or_vector StateSpace.Param
    | Token.DotReg => variable_scalar_or_vector StateSpace.Reg
    | _ => Parser.fail)

/-- List accumulation for `separated(0.., ...)` into a `Vec`. -/
def list_step : List Variable → Variable → List Variable := fun l v => l ++ [v]

/-- `kernel_arguments` from `main.rs`. -/
def kernel_arguments : Parser (List Variable) :=
  Parser.delimited (Parser.tok Token.LParen)
    (Parser.separated 0 none kernel_input (Parser.tok Token.Comma) [] list_step)
    (Parser.tok Token.RParen)

/-- `fn_arguments` from `main.rs`. -/
def fn_arguments : Parser (List Variable) :=
  Parser.delimited (Parser.tok Token.LParen)
    (Parser.separated 0 none fn_input (Parser.tok Token.Comma) [] list_step)
    (Parser.tok Token.RParen)

/-- `method_declaration` from `main.rs`. -/
def method_declaration : Parser MethodDeclaration :=
  Parser.bind Parser.any (fun t =>
    match t with
    | Token.DotEntry =>
      Parser.bind ident (fun name =>
      Parser.map (fun input_arguments =>
        { return_arguments := [], name := MethodName.Kernel name,
          input_arguments := input_arguments, shared_mem := none })
        kernel_arguments)
    | Token.DotFunc =>
      Parser.bind (Parser.opt fn_arguments) (fun ret =>
      Parser.bind ident (fun name =>
      Parser.map (fun input_arguments =>
        { return_arguments := ret.getD [], name := MethodName.Func name,
          input_arguments := input_arguments, shared_mem := none })
        fn_arguments))
    | _ => Parser.fail)

/-- `function` from `main.rs`: linking directive, method declaration,
tuning directives, body. -/
def function : Parser (LinkingDirective × PtxFunction) :=
  Parser.bind linking_directives (fun linking =>
  Parser.bind method_declaration (fun func_directive =>
  Parser.bind (Parser.repeat0 tuning_directive) (fun tuning =>
  Parser.map (fun body =>
    (linking, { func_directive := func_directive, tuning := tuning, body := body }))
    function_body)))

/-- `directive` from `main.rs`: only method definitions in this subset. -/
def directive : Parser (Option Directive) :=
  Parser.map (fun f => some (Directive.Method f.1 f.2)) function

/-- `module` from `main.rs`: version, target, optional address size, then
the directives; the module keeps the version and the directives. -/
def module : Parser PtxModule :=
  Parser.bind version (fun v =>
  Parser.bind target (fun _ =>
  Parser.bind (Parser.opt address_size) (fun _ =>
  Parser.map (fun directives => { version := v, directives := directives })
    (repeat_without_none directive))))

/-- winnow's `Parser::parse` entry point, used as `module.parse(stream)` in
`main.rs`: run the parser over the whole input, starting from an empty
diagnostic buffer, and fail unless every token was consumed. -/
def Parser.parse (p : Parser α) (ts : List Token) : Option (α × List PtxError) :=
  match p ts [] with
  | (some (a, rest), es) => if rest = [] then some (a, es) else none
  | (none, _) => none

/-! ## Modifier-choice enumerations for stating the st default law

The braced alternatives of the first st rule, as enumerations of the tokens
each may consume (from the rule table's variant declarations). -/

/-- The `.ss` alternatives of the st rule. -/
inductive StSSMod where
  | Global | Local | Param | ParamFunc | Shared | SharedCta | SharedCluster
deriving DecidableEq, Repr

/-- The token each `.ss` alternative consumes. -/
def StSSMod.tok : StSSMod → Token
  | StSSMod.Global => Token.DotGlobal
  | StSSMod.Local => Token.DotLocal
  | StSSMod.Param => Token.DotParam
  | StSSMod.ParamFunc => Token.DotParamFunc
  | StSSMod.Shared => Token.DotShared
  | StSSMod.SharedCta => Token.DotSharedCta
  | StSSMod.SharedCluster => Token.DotSharedCluster

/-- The state space each `.ss` alternative binds (`st_ss_f` of its token). -/
def StSSMod.val : StSSMod → StateSpace
  | StSSMod.Global => StateSpace.Global
  | StSSMod.Local => StateSpace.Local
  | StSSMod.Param => StateSpace.Param
  | StSSMod.ParamFunc => StateSpace.Param
  | StSSMod.Shared => StateSpace.Shared
  | StSSMod.SharedCta => StateSpace.Shared
  | StSSMod.SharedCluster => StateSpace.Shared

/-- The token of each `.cop` alternative of the st rule. -/
def st_cop_tok : RawStCacheOperator → Token
  | RawStCacheOperator.Wb => Token.DotWb
  | RawStCacheOperator.Cg => Token.DotCg
  | RawStCacheOperator.Cs => Token.DotCs
  | RawStCacheOperator.Wt => Token.DotWt

/-- The token of each `.vec` alternative. -/
def vec_tok : VectorPrefix → Token
  | VectorPrefix.V2 => Token.DotV2
  | VectorPrefix.V4 => Token.DotV4

/-- The `.type` alternatives of the ld/st rules. -/
inductive StTypeMod where
  | B8 | B16 | B32 | B64 | B128
  | U8 | U16 | U32 | U64
  | S8 | S16 | S32 | S64
  | F32 | F64
deriving DecidableEq, Repr

/-- The token each `.type` alternative consumes. -/
def StTypeMod.tok : StTypeMod → Token
  | StTypeMod.B8 => Token.DotB8
  | StTypeMod.B16 => Token.DotB16
  | StTypeMod.B32 => Token.DotB32
  | StTypeMod.B64 => Token.DotB64
  | StTypeMod.B128 => Token.DotB128
  | StTypeMod.U8 => Token.DotU8
  | StTypeMod.U16 => Token.DotU16
  | StTypeMod.U32 => Token.DotU32
  | StTypeMod.U64 => Token.DotU64
  | StTypeMod.S8 => Token.DotS8
  | StTypeMod.S16 => Token.DotS16
  | StTypeMod.S32 => Token.DotS32
  | StTypeMod.S64 => Token.DotS64
  | StTypeMod.F32 => Token.DotF32
  | StTypeMod.F64 => Token.DotF64

/-- The scalar type each `.type` alternative binds. -/
def StTypeMod.val : StTypeMod → ScalarType
  | StTypeMod.B8 => ScalarType.B8
  | StTypeMod.B16 => ScalarType.B16
  | StTypeMod.B32 => ScalarType.B32
  | StTypeMod.B64 => ScalarType.B64
  | StTypeMod.B128 => ScalarType.B128
  | StTypeMod.U8 => ScalarType.U8
  | StTypeMod.U16 => ScalarType.U16
  | StTypeMod.U32 => ScalarType.U32
  | StTypeMod.U64 => ScalarType.U64
  | StTypeMod.S8 => ScalarType.S8
  | StTypeMod.S16 => ScalarType.S16
  | StTypeMod.S32 => ScalarType.S32
  | StTypeMod.S64 => ScalarType.S64
  | StTypeMod.F32 => ScalarType.F32
  | StTypeMod.F64 => ScalarType.F64

/-- The modifier-token run of a first-rule st instruction in which the
eviction-priority and cache-hint extras are absent: optional `.weak`,
optional `.ss`, optional `.cop`, optional `.vec`, then the mandatory
type. -/
def st_modifier_tokens (w : Bool) (ss : Option StSSMod)
    (cop : Option RawStCacheOperator) (vec : Option VectorPrefix)
    (ty : StTypeMod) : List Token :=
  (if w then [Token.DotWeak] else []) ++ (ss.map StSSMod.tok).toList
    ++ (cop.map st_cop_tok).toList ++ (vec.map vec_tok).toList ++ [ty.tok]

/-! ## Helper lemmas: success inversion for the combinators -/

/-- Inverting a successful `bind`. -/
theorem Parser.bind_eq_some {α β : Type} (p : Parser α) (f : α → Parser β)
    (ts ts' : List Token) (es es' : List PtxError) (b : β)
    (h : Parser.bind p f ts es = (some (b, ts'), es')) :
    ∃ a ts0 es0, p ts es = (some (a, ts0), es0) ∧ f a ts0 es0 = (some (b, ts'), es') := by
  unfold Parser.bind at h
  rcases hp : p ts es with ⟨op, es0⟩
  rw [hp] at h
  rcases op with _ | ⟨a, ts0⟩
  · simp at h
  · exact ⟨a, ts0, es0, rfl, h⟩

/-- Inverting a successful `map`. -/
theorem Parser.map_eq_some {α β : Type} (f : α → β) (p : Parser α)
    (ts ts' : List Token) (es es' : List PtxError) (b : β)
    (h : Parser.map f p ts es = (some (b, ts'), es')) :
    ∃ a, p ts es = (some (a, ts'), es') ∧ b = f a := by
  rcases Parser.bind_eq_some _ _ _ _ _ _ _ h with ⟨a, ts0, es0, hp, hr⟩
  unfold Parser.pure at hr
  simp only [Prod.mk.injEq, Option.some.injEq] at hr
  obtain ⟨⟨h1, h2⟩, h3⟩ := hr
  subst h2
  subst h3
  exact ⟨a, hp, h1.symm⟩

/-- Inverting a successful `alt`. -/
theorem Parser.alt_eq_some {α : Type} (p q : Parser α)
    (ts : List Token) (es es' : List PtxError) (r : α × List Token)
    (h : Parser.alt p q ts es = (some r, es')) :
    p ts es = (some r, es') ∨
      ∃ es0, p ts es = (none, es0) ∧ q ts es0 = (some r, es') := by
  unfold Parser.alt at h
  rcases hp : p ts es with ⟨op, es0⟩
  rw [hp] at h
  rcases op with _ | r0
  · exact Or.inr ⟨es0, rfl, h⟩
  · simp only [Prod.mk.injEq, Option.some.injEq] at h
    obtain ⟨h1, h2⟩ := h
    subst h1
    subst h2
    exact Or.inl rfl

/-- Inverting a successful `verify_map`. -/
theorem Parser.verify_map_eq_some {α : Type} (f : Token → Option α)
    (ts ts' : List Token) (es es' : List PtxError) (v : α)
    (h : Parser.verify_map f ts es = (some (v, ts'), es')) :
    ∃ t, ts = t :: ts' ∧ f t = some v ∧ es' = es := by
  unfold Parser.verify_map at h
  rcases ts with _ | ⟨t, ts0⟩
  · simp at h
  · rcases hf : f t with _ | a <;> simp only [hf] at h
    · simp at h
    · simp only [Prod.mk.injEq, Option.some.injEq] at h
      obtain ⟨⟨h1, h2⟩, h3⟩ := h
      subst h1
      subst h2
      subst h3
      exact ⟨t, rfl, hf, rfl⟩

/-- Inverting a successful `take_error`. -/
theorem take_error_eq_some {α : Type} (p : Parser (Except (α × PtxError) α))
    (ts ts' : List Token) (es es' : List PtxError) (v : α)
    (h : take_error p ts es = (some (v, ts'), es')) :
    p ts es = (some (Except.ok v, ts'), es') ∨
      ∃ e es0, p ts es = (some (Except.error (v, e), ts'), es0) ∧ es' = es0 ++ [e] := by
  unfold take_error at h
  rcases hp : p ts es with ⟨op, es0⟩
  rw [hp] at h
  rcases op with _ | ⟨exc, ts0⟩
  · simp at h
  · rcases exc with ⟨fb, e⟩ | a <;> simp only [Prod.mk.injEq, Option.some.injEq] at h
    · obtain ⟨⟨h1, h2⟩, h3⟩ := h
      subst h2
      subst h1
      exact Or.inr ⟨e, es0, rfl, h3.symm⟩
    · obtain ⟨⟨h1, h2⟩, h3⟩ := h
      subst h2
      subst h1
      subst h3
      exact Or.inl rfl

/-- Inverting a successful `pure`. -/
theorem Parser.pure_eq_some {α : Type} (a : α) (ts ts' : List Token)
    (es es' : List PtxError) (v : α)
    (h : Parser.pure a ts es = (some (v, ts'), es')) :
    v = a ∧ ts' = ts ∧ es' = es := by
  unfold Parser.pure at h
  simp only [Prod.mk.injEq, Option.some.injEq] at h
  obtain ⟨⟨h1, h2⟩, h3⟩ := h
  exact ⟨h1.symm, h2.symm, h3.symm⟩

/-! ## Numeric evaluation lemmas -/

/-- `from_str_radix` on a non-empty all-valid digit string is the bound
check on its value. -/
theorem from_str_radix_pos (bound radix : Nat) (s : String) (v : Nat)
    (hne : s.data ≠ []) (hv : parseDigits radix s.data 0 = some v) :
    from_str_radix bound s radix = if v ≤ bound then some v else none := by
  unfold from_str_radix
  rcases hd : s.data with _ | ⟨c, cs⟩
  · exact absurd hd hne
  · rw [hd] at hv
    simp [hv]

/-- Evaluating `int_immediate` once the leading sign and the numeric token
are fixed: the result is the mapped body's value, with the diagnostic
appended on the error side. -/
theorem int_immediate_eval (t : Token) (s : String) (radix : Nat) (u : Bool)
    (neg : Bool) (rest : List Token) (es : List PtxError)
    (hnum : num_f t = some (s, radix, u)) :
    int_immediate ((if neg then [Token.Minus] else []) ++ t :: rest) es =
      match int_immediate_body (if neg then some () else none) (s, radix, u) with
      | Except.ok v => (some (v, rest), es)
      | Except.error (v, e) => (some (v, rest), es ++ [e]) := by
  have ht : t ≠ Token.Minus := by
    intro e
    subst e
    simp [num_f] at hnum
  rcases hb : int_immediate_body (if neg then some () else none) (s, radix, u)
    with ⟨v, e⟩ | v <;>
    cases neg <;>
    simp_all [int_immediate, take_error, Parser.bind, Parser.opt, Parser.tok,
      Parser.verify_map, Parser.tok_f, Parser.map, Parser.pure, num]

/-! ## Claim theorems -/

/-- C6: the raw-to-semantic modifier conversions are exactly the documented
table (store cache operators, load cache operators, rounding modes, and
the weak/volatile qualifiers). -/
theorem raw_to_semantic_conversion_table :
    RawStCacheOperator.Wb.into = StCacheOperator.Writeback ∧
    RawStCacheOperator.Cg.into = StCacheOperator.L2Only ∧
    RawStCacheOperator.Cs.into = StCacheOperator.Streaming ∧
    RawStCacheOperator.Wt.into = StCacheOperator.Writethrough ∧
    RawLdCacheOperator.Ca.into = LdCacheOperator.Cached ∧
    RawLdCacheOperator.Cg.into = LdCacheOperator.L2Only ∧
    RawLdCacheOperator.Cs.into = LdCacheOperator.Streaming ∧
    RawLdCacheOperator.Lu.into = LdCacheOperator.LastUse ∧
    RawLdCacheOperator.Cv.into = LdCacheOperator.Uncached ∧
    RawFloatRounding.Rn.into = RoundingMode.NearestEven ∧
    RawFloatRounding.Rz.into = RoundingMode.Zero ∧
    RawFloatRounding.Rm.into = RoundingMode.NegativeInf ∧
    RawFloatRounding.Rp.into = RoundingMode.PositiveInf ∧
    RawLdStQualifier.Weak.into = LdStQualifier.Weak ∧
    RawLdStQualifier.Volatile.into = LdStQualifier.Volatile := by
  decide

/-- C8: `take_error` returns the inner parser's `Ok` value with the
diagnostic buffer unchanged, and on `Err((fallback, diagnostic))` it appends
exactly that diagnostic and succeeds with the fallback. -/
theorem take_error_contract :
    ∀ (α : Type) (p : Parser (Except (α × PtxError) α)) (ts ts' : List Token)
      (es es' : List PtxError) (v fb : α) (e : PtxError),
      (p ts es = (some (Except.ok v, ts'), es') →
        take_error p ts es = (some (v, ts'), es')) ∧
      (p ts es = (some (Except.error (fb, e), ts'), es') →
        take_error p ts es = (some (fb, ts'), es' ++ [e])) := by
  intro α p ts ts' es es' v fb e
  constructor <;> intro h <;> simp [take_error, h]

/-- C4 (the code's actual behaviour at the claimed input): winnow's
`separated(1..3, u32, Token::Comma)` admits at most two components (the Rust
range `1..3` is the inclusive occurrence range 1..=2), so `.maxntid 1, 2, 3`
stops after `1, 2` — the third component is left unconsumed (and its slot
defaulted to 1), which makes the surrounding full parse fail; one and two
components do work, with unspecified slots defaulting to 1. -/
theorem tuple1to3_u32_caps_at_two :
    tuple1to3_u32 [Token.Decimal "1", Token.Comma, Token.Decimal "2",
        Token.Comma, Token.Decimal "3"] [] =
      (some ((1, 2, 1), [Token.Comma, Token.Decimal "3"]), []) ∧
    tuning_directive [Token.DotMaxntid, Token.Decimal "1", Token.Comma,
        Token.Decimal "2", Token.Comma, Token.Decimal "3"] [] =
      (some (TuningDirective.MaxNtid 1 2 1, [Token.Comma, Token.Decimal "3"]), []) ∧
    Parser.parse tuning_directive [Token.DotMaxntid, Token.Decimal "1",
        Token.Comma, Token.Decimal "2", Token.Comma, Token.Decimal "3"] = none ∧
    tuple1to3_u32 [Token.Decimal "7"] [] = (some ((7, 1, 1), []), []) ∧
    tuple1to3_u32 [Token.Decimal "7", Token.Comma, Token.Decimal "8"] [] =
      (some ((7, 8, 1), []), []) := by
  refine ⟨rfl, rfl, rfl, rfl, rfl⟩

/-- C2 (amended): integer-immediate signedness.  A leading `-` takes the
signed branch and yields `S64` of the negated value whenever the digits'
value is at most `i64::MAX` (larger values fall back to `S64(0)` with a
`ParseInt` diagnostic); a trailing `U` without `-` yields a `U64` result;
a bare literal yields `S64` of its value when it fits `i64`, else `U64`
when it fits `u64`. -/
theorem int_immediate_signedness_policy :
    (∀ (t : Token) (s : String) (radix : Nat) (u : Bool) (rest : List Token)
        (es : List PtxError) (v : Nat),
      num_f t = some (s, radix, u) → s.data ≠ [] →
      parseDigits radix s.data 0 = some v → v ≤ i64Max →
      int_immediate (Token.Minus :: t :: rest) es =
        (some (ImmediateValue.S64 (-(v : Int)), rest), es)) ∧
    (∀ (t : Token) (s : String) (radix : Nat) (u : Bool) (rest : List Token)
        (es : List PtxError) (v : Nat),
      num_f t = some (s, radix, u) → s.data ≠ [] →
      parseDigits radix s.data 0 = some v → i64Max < v →
      int_immediate (Token.Minus :: t :: rest) es =
        (some (ImmediateValue.S64 0, rest), es ++ [PtxError.ParseInt])) ∧
    (∀ (t : Token) (s : String) (radix : Nat) (rest : List Token)
        (es : List PtxError),
      num_f t = some (s, radix, true) →
      ∃ n es2, int_immediate (t :: rest) es =
        (some (ImmediateValue.U64 n, rest), es2)) ∧
    (∀ (t : Token) (s : String) (radix : Nat) (rest : List Token)
        (es : List PtxError) (v : Nat),
      num_f t = some (s, radix, false) → s.data ≠ [] →
      parseDigits radix s.data 0 = some v → v ≤ i64Max →
      int_immediate (t :: rest) es =
        (some (ImmediateValue.S64 (v : Int), rest), es)) ∧
    (∀ (t : Token) (s : String) (radix : Nat) (rest : List Token)
        (es : List PtxError) (v : Nat),
      num_f t = some (s, radix, false) → s.data ≠ [] →
      parseDigits radix s.data 0 = some v → i64Max < v → v ≤ 2 ^ 64 - 1 →
      int_immediate (t :: rest) es =
        (some (ImmediateValue.U64 v, rest), es)) ∧
    int_immediate [Token.Minus, Token.Decimal "5"] [] =
      (some (ImmediateValue.S64 (-5), []), []) ∧
    int_immediate [Token.Decimal "5U"] [] =
      (some (ImmediateValue.U64 5, []), []) ∧
    int_immediate [Token.Decimal "5"] [] =
      (some (ImmediateValue.S64 5, []), []) ∧
    int_immediate [Token.Decimal "9223372036854775808"] [] =
      (some (ImmediateValue.U64 9223372036854775808, []), []) := by
  refine ⟨?_, ?_, ?_, ?_, ?_, rfl, rfl, rfl, rfl⟩
  · intro t s radix u rest es v hnum hne hv hle
    have hb : int_immediate_body (some ()) (s, radix, u) =
        Except.ok (ImmediateValue.S64 (-(v : Int))) := by
      unfold int_immediate_body
      simp [i64_from_str_radix, from_str_radix_pos i64Max radix s v hne hv, hle]
    have he := int_immediate_eval t s radix u true rest es hnum
    simp [hb] at he
    simpa using he
  · intro t s radix u rest es v hnum hne hv hgt
    have hb : int_immediate_body (some ()) (s, radix, u) =
        Except.error (ImmediateValue.S64 0, PtxError.ParseInt) := by
      unfold int_immediate_body
      simp [i64_from_str_radix, from_str_radix_pos i64Max radix s v hne hv,
        Nat.not_le.mpr hgt]
    have he := int_immediate_eval t s radix u true rest es hnum
    simp [hb] at he
    simpa using he
  · intro t s radix rest es hnum
    have he := int_immediate_eval t s radix true false rest es hnum
    rcases hu : u64_from_str_radix s radix with _ | n
    · have hb : int_immediate_body none (s, radix, true) =
          Except.error (ImmediateValue.U64 0, PtxError.ParseInt) := by
        unfold int_immediate_body
        simp [hu]
      refine ⟨0, es ++ [PtxError.ParseInt], ?_⟩
      simp [hb] at he
      simpa using he
    · have hb : int_immediate_body none (s, radix, true) =
          Except.ok (ImmediateValue.U64 n) := by
        unfold int_immediate_body
        simp [hu]
      refine ⟨n, es, ?_⟩
      simp [hb] at he
      simpa using he
  · intro t s radix rest es v hnum hne hv hle
    have hb : int_immediate_body none (s, radix, false) =
        Except.ok (ImmediateValue.S64 (v : Int)) := by
      unfold int_immediate_body
      simp [i64_from_str_radix, from_str_radix_pos i64Max radix s v hne hv, hle]
    have he := int_immediate_eval t s radix false false rest es hnum
    simp [hb] at he
    simpa using he
  · intro t s radix rest es v hnum hne hv hgt hle
    have hb : int_immediate_body none (s, radix, false) =
        Except.ok (ImmediateValue.U64 v) := by
      unfold int_immediate_body
      have h1 := from_str_radix_pos i64Max radix s v hne hv
      have h2 := from_str_radix_pos (2 ^ 64 - 1) radix s v hne hv
      norm_num at h2
      have hle2 : v ≤ 18446744073709551615 := by omega
      simp [i64_from_str_radix, u64_from_str_radix, h1, h2,
        Nat.not_le.mpr hgt, hle2]
    have he := int_immediate_eval t s radix false false rest es hnum
    simp [hb] at he
    simpa using he

/-- C2 counterexample: for the literal `-9223372036854775808` (leading `-`,
digits' value `2^63`), the code does not produce `S64` of the negated value
(which is representable in `i64`): `i64::from_str_radix` overflows on the
unsigned digit string first, so the fallback `S64(0)` is produced together
with a `ParseInt` diagnostic. -/
theorem int_immediate_neg_overflow_cex :
    int_immediate [Token.Minus, Token.Decimal "9223372036854775808"] [] =
      (some (ImmediateValue.S64 0, []), [PtxError.ParseInt]) ∧
    ImmediateValue.S64 0 ≠ ImmediateValue.S64 (-9223372036854775808) := by
  exact ⟨rfl, by decide⟩

/-- C9 (amended): a literal with both a leading `-` and a trailing `U`
takes the signed branch — `num` strips the `U`, `int_immediate` checks the
minus first and ignores the `is_unsigned` flag — so the result is `S64` of
the negated value whenever the digits fit `i64` (the fallback `S64(0)` with
a `ParseInt` diagnostic otherwise), and never a `U64` value; in particular
`-5U` gives `S64(-5)`. -/
theorem int_immediate_minus_u_signed :
    (∀ (t : Token) (s : String) (radix : Nat) (rest : List Token)
        (es : List PtxError) (v : Nat),
      num_f t = some (s, radix, true) → s.data ≠ [] →
      parseDigits radix s.data 0 = some v → v ≤ i64Max →
      int_immediate (Token.Minus :: t :: rest) es =
        (some (ImmediateValue.S64 (-(v : Int)), rest), es)) ∧
    (∀ (t : Token) (s : String) (radix : Nat) (u : Bool) (rest ts2 : List Token)
        (es es2 : List PtxError) (r : ImmediateValue),
      num_f t = some (s, radix, u) →
      int_immediate (Token.Minus :: t :: rest) es = (some (r, ts2), es2) →
      ∃ z, r = ImmediateValue.S64 z) ∧
    int_immediate [Token.Minus, Token.Decimal "5U"] [] =
      (some (ImmediateValue.S64 (-5), []), []) := by
  refine ⟨?_, ?_, rfl⟩
  · intro t s radix rest es v hnum hne hv hle
    have hb : int_immediate_body (some ()) (s, radix, true) =
        Except.ok (ImmediateValue.S64 (-(v : Int))) := by
      unfold int_immediate_body
      simp [i64_from_str_radix, from_str_radix_pos i64Max radix s v hne hv, hle]
    have he := int_immediate_eval t s radix true true rest es hnum
    simp [hb] at he
    simpa using he
  · intro t s radix u rest ts2 es es2 r hnum h
    have he := int_immediate_eval t s radix u true rest es hnum
    simp only [if_pos] at he
    rcases hi : i64_from_str_radix s radix with _ | w
    · have hb : int_immediate_body (some ()) (s, radix, u) =
          Except.error (ImmediateValue.S64 0, PtxError.ParseInt) := by
        unfold int_immediate_body
        simp [hi]
      simp [hb] at he
      rw [h] at he
      simp only [Prod.mk.injEq, Option.some.injEq] at he
      exact ⟨0, he.1.1⟩
    · have hb : int_immediate_body (some ()) (s, radix, u) =
          Except.ok (ImmediateValue.S64 (-(w : Int))) := by
        unfold int_immediate_body
        simp [hi]
      simp [hb] at he
      rw [h] at he
      simp only [Prod.mk.injEq, Option.some.injEq] at he
      exact ⟨-(w : Int), he.1.1⟩

/-- C9 counterexample: for `-9223372036854775808U` the signed branch
overflows, so the result is the fallback `S64(0)` with a `ParseInt`
diagnostic — not `S64` of the negated value. -/
theorem int_immediate_minus_u_overflow_cex :
    int_immediate [Token.Minus, Token.Decimal "9223372036854775808U"] [] =
      (some (ImmediateValue.S64 0, []), [PtxError.ParseInt]) ∧
    ImmediateValue.S64 0 ≠ ImmediateValue.S64 (-9223372036854775808) := by
  exact ⟨rfl, by decide⟩

/-- One-step evaluation of `vector_operand` past `[ r1 , r2`: the next token
is dispatched. -/
theorem vector_operand_step (r1 r2 : String) (t : Token) (rest : List Token)
    (es : List PtxError) :
    vector_operand (Token.LBracket :: Token.Ident r1 :: Token.Comma ::
        Token.Ident r2 :: t :: rest) es =
      (match t with
       | Token.LBracket => (some ([r1, r2], rest), es)
       | Token.Comma =>
         (Parser.bind ident (fun r3 =>
           Parser.bind (Parser.tok Token.Comma) (fun _ =>
           Parser.bind ident (fun r4 =>
           Parser.map (fun _ => [r1, r2, r3, r4])
             (Parser.tok Token.LBracket))))) rest es
       | _ => (none, es)) := by
  rcases t <;> rfl

/-- C10: after `[ r1 , r2` the two-element pack closes exactly on a `[`
token (a `]` there fails the alternative), and the four-element pack needs
`, r3 , r4 [`. -/
theorem vector_operand_pack_form :
    (∀ (r1 r2 : String) (t : Token) (rest : List Token) (es : List PtxError),
      (∃ rest2, vector_operand (Token.LBracket :: Token.Ident r1 :: Token.Comma ::
          Token.Ident r2 :: t :: rest) es = (some ([r1, r2], rest2), es)) ↔
        t = Token.LBracket) ∧
    (∀ (r1 r2 : String) (rest : List Token) (es : List PtxError),
      vector_operand (Token.LBracket :: Token.Ident r1 :: Token.Comma ::
          Token.Ident r2 :: Token.LBracket :: rest) es =
        (some ([r1, r2], rest), es)) ∧
    (∀ (r1 r2 : String) (rest : List Token) (es : List PtxError),
      vector_operand (Token.LBracket :: Token.Ident r1 :: Token.Comma ::
          Token.Ident r2 :: Token.RBracket :: rest) es = (none, es)) ∧
    (∀ (r1 r2 r3 r4 : String) (rest : List Token) (es : List PtxError),
      vector_operand (Token.LBracket :: Token.Ident r1 :: Token.Comma ::
          Token.Ident r2 :: Token.Comma :: Token.Ident r3 :: Token.Comma ::
          Token.Ident r4 :: Token.LBracket :: rest) es =
        (some ([r1, r2, r3, r4], rest), es)) := by
  refine ⟨?_, fun r1 r2 rest es => rfl, fun r1 r2 rest es => rfl,
    fun r1 r2 r3 r4 rest es => rfl⟩
  intro r1 r2 t rest es
  constructor
  · rintro ⟨rest2, h⟩
    rw [vector_operand_step] at h
    cases t
    case LBracket => rfl
    case Comma =>
      rcases Parser.bind_eq_some _ _ _ _ _ _ _ h with ⟨r3, ts1, es1, h3, hr1⟩
      rcases Parser.bind_eq_some _ _ _ _ _ _ _ hr1 with ⟨u1, ts2, es2, hc, hr2⟩
      rcases Parser.bind_eq_some _ _ _ _ _ _ _ hr2 with ⟨r4, ts3, es3, h4, hr3⟩
      rcases Parser.map_eq_some _ _ _ _ _ _ _ hr3 with ⟨u2, htok, hval⟩
      simp at hval
    all_goals simp at h
  · intro h
    subst h
    exact ⟨rest, rfl⟩

/-- Every successful `vector_index` is below 4. -/
theorem vector_index_ok_lt (s : String) (i : Nat)
    (h : vector_index s = Except.ok i) : i < 4 := by
  unfold vector_index at h
  split_ifs at h <;> simp_all <;> omega

/-- Any suffix outside the eight recognized letters is the
`WrongVectorElement` error. -/
theorem vector_index_unknown (s : String)
    (h : s ∉ (["x", "r", "y", "g", "z", "b", "w", "a"] : List String)) :
    vector_index s = Except.error PtxError.WrongVectorElement := by
  simp at h
  obtain ⟨h1, h2, h3, h4, h5, h6, h7, h8⟩ := h
  unfold vector_index
  simp [h1, h2, h3, h4, h5, h6, h7, h8]

/-- Evaluating `ident_operands` on an identifier with a `.suffix`: the
vector-index result, with the fallback index 0 and the pushed diagnostic on
the error side. -/
theorem ident_operands_suffix (m s : String) (rest : List Token)
    (es : List PtxError) :
    ident_operands (Token.Ident m :: Token.Dot :: Token.Ident s :: rest) es =
      (match vector_index s with
       | Except.ok i => (some (ParsedOperand.VecMember m i, rest), es)
       | Except.error e => (some (ParsedOperand.VecMember m 0, rest), es ++ [e])) := by
  rcases hv : vector_index s with e | i <;>
    simp [ident_operands, ident, Parser.bind, Parser.alt, Parser.map, Parser.pure,
      Parser.opt, Parser.preceded, Parser.tok, Parser.verify_map, Parser.tok_f,
      take_error, vec_suffix_body, opcode_text, s32, num, hv]

/-- A successful `ident_operands` that returns a `VecMember` has an index
below 4 (the value comes from `vector_index`, or is the fallback 0). -/
theorem ident_operands_vec_member_lt (ts rest : List Token)
    (es es' : List PtxError) (m : String) (i : Nat)
    (h : ident_operands ts es = (some (ParsedOperand.VecMember m i, rest), es')) :
    i < 4 := by
  rcases Parser.bind_eq_some _ _ _ _ _ _ _ h with ⟨mi, ts1, es1, hid, hr⟩
  rcases Parser.alt_eq_some _ _ _ _ _ _ hr with h1 | ⟨es2, hfail1, h2⟩
  · rcases Parser.map_eq_some _ _ _ _ _ _ _ h1 with ⟨off, _, hval⟩
    simp at hval
  · rcases Parser.alt_eq_some _ _ _ _ _ _ h2 with h3 | ⟨es3, hfail2, h4⟩
    · rcases take_error_eq_some _ _ _ _ _ _ h3 with hok | ⟨e, es4, herr, hes⟩
      · rcases Parser.map_eq_some _ _ _ _ _ _ _ hok with ⟨sfx, _, hval⟩
        unfold vec_suffix_body at hval
        rcases hvi : vector_index sfx with e0 | j
        · rw [hvi] at hval
          simp at hval
        · rw [hvi] at hval
          simp at hval
          rw [hval.2]
          exact vector_index_ok_lt sfx j hvi
      · rcases Parser.map_eq_some _ _ _ _ _ _ _ herr with ⟨sfx, _, hval⟩
        unfold vec_suffix_body at hval
        rcases hvi : vector_index sfx with e0 | j
        · rw [hvi] at hval
          simp at hval
          omega
        · rw [hvi] at hval
          simp at hval
    · rcases Parser.pure_eq_some _ _ _ _ _ _ h4 with ⟨hval, _, _⟩
      simp at hval

/-- C3: every `VecMember` the operand parser produces has index in
{0,1,2,3}; the letters `x|r`, `y|g`, `z|b`, `w|a` map to 0..3, and any
other suffix identifier pushes `WrongVectorElement` and falls back to
index 0. -/
theorem vec_member_index_law :
    (∀ (ts rest : List Token) (es es' : List PtxError) (m : String) (i : Nat),
      ParsedOperand.parse ts es = (some (ParsedOperand.VecMember m i, rest), es') →
        i < 4) ∧
    (∀ (m : String) (rest : List Token) (es : List PtxError),
      ident_operands (Token.Ident m :: Token.Dot :: Token.Ident "x" :: rest) es =
        (some (ParsedOperand.VecMember m 0, rest), es) ∧
      ident_operands (Token.Ident m :: Token.Dot :: Token.Ident "r" :: rest) es =
        (some (ParsedOperand.VecMember m 0, rest), es) ∧
      ident_operands (Token.Ident m :: Token.Dot :: Token.Ident "y" :: rest) es =
        (some (ParsedOperand.VecMember m 1, rest), es) ∧
      ident_operands (Token.Ident m :: Token.Dot :: Token.Ident "g" :: rest) es =
        (some (ParsedOperand.VecMember m 1, rest), es) ∧
      ident_operands (Token.Ident m :: Token.Dot :: Token.Ident "z" :: rest) es =
        (some (ParsedOperand.VecMember m 2, rest), es) ∧
      ident_operands (Token.Ident m :: Token.Dot :: Token.Ident "b" :: rest) es =
        (some (ParsedOperand.VecMember m 2, rest), es) ∧
      ident_operands (Token.Ident m :: Token.Dot :: Token.Ident "w" :: rest) es =
        (some (ParsedOperand.VecMember m 3, rest), es) ∧
      ident_operands (Token.Ident m :: Token.Dot :: Token.Ident "a" :: rest) es =
        (some (ParsedOperand.VecMember m 3, rest), es)) ∧
    (∀ (m s : String) (rest : List Token) (es : List PtxError),
      s ∉ (["x", "r", "y", "g", "z", "b", "w", "a"] : List String) →
      ident_operands (Token.Ident m :: Token.Dot :: Token.Ident s :: rest) es =
        (some (ParsedOperand.VecMember m 0, rest),
          es ++ [PtxError.WrongVectorElement])) := by
  refine ⟨?_, ?_, ?_⟩
  · intro ts rest es es' m i h
    rcases Parser.alt_eq_some _ _ _ _ _ _ h with h1 | ⟨es2, hfail1, h2⟩
    · exact ident_operands_vec_member_lt ts rest es es' m i h1
    · rcases Parser.alt_eq_some _ _ _ _ _ _ h2 with h3 | ⟨es3, hfail2, h4⟩
      · rcases Parser.map_eq_some _ _ _ _ _ _ _ h3 with ⟨imm, _, hval⟩
        simp at hval
      · rcases Parser.map_eq_some _ _ _ _ _ _ _ h4 with ⟨pk, _, hval⟩
        simp at hval
  · intro m rest es
    exact ⟨rfl, rfl, rfl, rfl, rfl, rfl, rfl, rfl⟩
  · intro m s rest es hmem
    rw [ident_operands_suffix, vector_index_unknown s hmem]

/-! ## Character and digit-string lemmas (for the shader-model law) -/

/-- An ASCII-lowercase letter is not a decimal digit. -/
theorem lower_not_digit (c : Char) (h : c.isLower = true) : c.isDigit = false := by
  simp [Char.isLower, Char.isDigit] at *
  intro h2
  obtain ⟨h1, h3⟩ := h
  simp [UInt32.le_def, UInt32.lt_def, BitVec.le_def, BitVec.lt_def] at *
  omega

/-- A decimal digit lies between `'0'` and `'9'`. -/
theorem digit_bounds (c : Char) (h : c.isDigit = true) : '0' ≤ c ∧ c ≤ '9' := by
  simp [Char.isDigit] at h
  exact ⟨h.1, h.2⟩

/-- `digitVal` of a decimal digit is its value below 10. -/
theorem digitVal_of_digit (c : Char) (h : c.isDigit = true) :
    digitVal c = some (c.toNat - '0'.toNat) ∧ c.toNat - '0'.toNat < 10 := by
  have hb := digit_bounds c h
  constructor
  · simp [digitVal, hb]
  · obtain ⟨hb1, hb2⟩ := hb
    simp [Char.le_def, UInt32.le_def, BitVec.le_def] at hb1 hb2
    simp [Char.toNat, UInt32.toNat]
    omega

/-- On an all-digit string, `parseDigits` succeeds with the base-`radix`
fold of the digit values. -/
theorem parseDigits_all_digits (radix : Nat) (hr : 10 ≤ radix) :
    ∀ (ds : List Char) (acc : Nat), (∀ d ∈ ds, d.isDigit) →
    parseDigits radix ds acc =
      some (ds.foldl (fun a d => a * radix + (d.toNat - 48)) acc) := by
  intro ds
  induction ds with
  | nil => intro acc _; rfl
  | cons d ds ih =>
    intro acc hall
    have hd := digitVal_of_digit d (hall d (by simp))
    have h0 : ('0' : Char).toNat = 48 := rfl
    unfold parseDigits
    rw [hd.1]
    simp only [if_pos (lt_of_lt_of_le hd.2 hr)]
    rw [ih _ (fun x hx => hall x (by simp [hx]))]
    simp [h0]

/-- `takeWhile`/`dropWhile` on an all-true run followed by a stopper. -/
theorem takeWhile_all_append (p : Char → Bool) (ds suffix : List Char)
    (hall : ∀ d ∈ ds, p d)
    (hsuf : suffix = [] ∨ ∃ ch t, suffix = ch :: t ∧ p ch = false) :
    (ds ++ suffix).takeWhile p = ds ∧ (ds ++ suffix).dropWhile p = suffix := by
  induction ds with
  | nil =>
    rcases hsuf with h | ⟨ch, t, h, hp⟩
    · subst h; exact ⟨rfl, rfl⟩
    · subst h
      constructor
      · simp [List.takeWhile, hp]
      · simp [List.dropWhile, hp]
  | cons d ds ih =>
    have hd := hall d (by simp)
    have := ih (fun x hx => hall x (by simp [hx]))
    constructor
    · simp [List.takeWhile, hd, this.1]
    · simp [List.dropWhile, hd, this.2]

/-- The shape characterization of `shader_model`: it succeeds exactly on
`sm_` followed by a non-empty digit run whose decimal value fits `u32`,
with at most one trailing ASCII-lowercase letter, and returns that value
and the optional letter. -/
theorem shader_model_iff (s : String) (n : Nat) (c : Option Char) :
    shader_model s = some (n, c) ↔
      ∃ ds suffix, s.data = 's' :: 'm' :: '_' :: (ds ++ suffix) ∧ ds ≠ [] ∧
        (∀ d ∈ ds, d.isDigit) ∧
        n = ds.foldl (fun a d => a * 10 + (d.toNat - 48)) 0 ∧ n ≤ 2 ^ 32 - 1 ∧
        ((c = none ∧ suffix = []) ∨
          (∃ ch, c = some ch ∧ suffix = [ch] ∧ ch.isLower)) := by
  constructor
  · intro h
    unfold shader_model at h
    rcases hd : s.data with _ | ⟨c1, tail1⟩
    · rw [hd] at h; simp at h
    rcases tail1 with _ | ⟨c2, tail2⟩
    · rw [hd] at h; simp at h
    rcases tail2 with _ | ⟨c3, tail3⟩
    · rw [hd] at h; simp at h
    rw [hd] at h
    dsimp only [] at h
    by_cases hc : c1 = 's' ∧ c2 = 'm' ∧ c3 = '_'
    · rw [if_pos hc] at h
      obtain ⟨hc1, hc2, hc3⟩ := hc
      subst hc1; subst hc2; subst hc3
      by_cases hne : tail3.takeWhile Char.isDigit = []
      · rw [if_pos hne] at h; simp at h
      · rw [if_neg hne] at h
        rcases hp : parseDigits 10 (tail3.takeWhile Char.isDigit) 0 with _ | v
        · rw [hp] at h; simp at h
        · rw [hp] at h
          dsimp only [] at h
          by_cases hbv : v ≤ 2 ^ 32 - 1
          · rw [if_pos hbv] at h
            have hsplit := List.takeWhile_append_dropWhile Char.isDigit tail3
            have hmem : ∀ d ∈ tail3.takeWhile Char.isDigit, d.isDigit :=
              fun d hd2 => List.mem_takeWhile_imp hd2
            have hfold := parseDigits_all_digits 10 (le_refl 10)
              (tail3.takeWhile Char.isDigit) 0 hmem
            rw [hp] at hfold
            have hv : v = (tail3.takeWhile Char.isDigit).foldl
                (fun a d => a * 10 + (d.toNat - 48)) 0 := by
              injection hfold
            rcases hr : tail3.dropWhile Char.isDigit with _ | ⟨ch, t⟩
            · rw [hr] at h
              rw [hr] at hsplit
              simp only [Option.some.injEq, Prod.mk.injEq] at h
              refine ⟨tail3.takeWhile Char.isDigit, [], ?_, hne, hmem, ?_, ?_, ?_⟩
              · exact congrArg (fun l => 's' :: 'm' :: '_' :: l) hsplit.symm
              · rw [← h.1, hv]
              · rw [← h.1]; exact hbv
              · exact Or.inl ⟨h.2.symm, rfl⟩
            · rcases t with _ | ⟨ch2, t2⟩
              · rw [hr] at h
                rw [hr] at hsplit
                dsimp only [] at h
                by_cases hl : ch.isLower
                · rw [if_pos hl] at h
                  simp only [Option.some.injEq, Prod.mk.injEq] at h
                  refine ⟨tail3.takeWhile Char.isDigit, [ch], ?_, hne, hmem,
                    ?_, ?_, ?_⟩
                  · exact congrArg (fun l => 's' :: 'm' :: '_' :: l) hsplit.symm
                  · rw [← h.1, hv]
                  · rw [← h.1]; exact hbv
                  · exact Or.inr ⟨ch, h.2.symm, rfl, hl⟩
                · rw [if_neg hl] at h; simp at h
              · rw [hr] at h; simp at h
          · rw [if_neg hbv] at h; simp at h
    · rw [if_neg hc] at h; simp at h
  · rintro ⟨ds, suffix, hd, hne, hdig, hn, hb, hsuf⟩
    have hfold := parseDigits_all_digits 10 (le_refl 10) ds 0 hdig
    have hb2 : ds.foldl (fun a d => a * 10 + (d.toNat - 48)) 0 ≤ 2 ^ 32 - 1 :=
      hn ▸ hb
    have hb3 : ds.foldl (fun a d => a * 10 + (d.toNat - 48)) 0 ≤ 4294967295 := by
      norm_num at hb2
      exact hb2
    rcases hsuf with ⟨hc, hs⟩ | ⟨ch, hc, hs, hl⟩
    · subst hc; subst hs
      have htw := takeWhile_all_append Char.isDigit ds [] hdig (Or.inl rfl)
      rw [List.append_nil] at htw hd
      simp only [shader_model, hd]
      simp [htw.1, htw.2, hne, hfold, hb3, hn]
    · subst hc; subst hs
      have htw := takeWhile_all_append Char.isDigit ds [ch] hdig
        (Or.inr ⟨ch, [], rfl, lower_not_digit ch hl⟩)
      simp only [shader_model, hd]
      simp [htw.1, htw.2, hne, hfold, hb3, hl, hn]

/-- C5: a `.target` directive succeeds exactly when the identifier is `sm_`
followed by a decimal number (a non-empty digit run whose value fits the
`u32` that `dec_uint` produces) and at most one trailing ASCII-lowercase
letter, returning the number and the optional letter; `sm_11` gives
`(11, none)`, `sm_90a` gives `(90, some 'a')`, and the multi-letter suffix
of `sm_90ab` makes the parse fail. -/
theorem target_shader_model_law :
    (∀ (s : String) (rest : List Token) (es : List PtxError)
        (r : Nat × Option Char),
      target (Token.DotTarget :: Token.Ident s :: rest) es =
          (some (r, rest), es) ↔ shader_model s = some r) ∧
    (∀ (s : String) (n : Nat) (c : Option Char),
      shader_model s = some (n, c) ↔
        ∃ ds suffix, s.data = 's' :: 'm' :: '_' :: (ds ++ suffix) ∧ ds ≠ [] ∧
          (∀ d ∈ ds, d.isDigit) ∧
          n = ds.foldl (fun a d => a * 10 + (d.toNat - 48)) 0 ∧
          n ≤ 2 ^ 32 - 1 ∧
          ((c = none ∧ suffix = []) ∨
            (∃ ch, c = some ch ∧ suffix = [ch] ∧ ch.isLower))) ∧
    shader_model "sm_11" = some (11, none) ∧
    shader_model "sm_90a" = some (90, some 'a') ∧
    shader_model "sm_90ab" = none ∧
    target [Token.DotTarget, Token.Ident "sm_11"] [] = (some ((11, none), []), []) ∧
    target [Token.DotTarget, Token.Ident "sm_90ab"] [] = (none, []) := by
  refine ⟨?_, fun s n c => shader_model_iff s n c, rfl, rfl, rfl, rfl, rfl⟩
  intro s rest es r
  rcases hs : shader_model s with _ | r0 <;>
    simp [target, Parser.preceded, Parser.bind, Parser.tok, Parser.verify_map,
      Parser.tok_f, ident, opcode_text, hs]

/-- C7: the module entry point (`module.parse`) consumes the entire token
stream: a successful parse means the underlying parser left no tokens, and
any run that leaves trailing tokens is rejected; concretely, a minimal
module parses with nothing left, and the same module with a stray trailing
`;` is a parse failure. -/
theorem module_total_consumption :
    (∀ (ts : List Token) (m : PtxModule) (es : List PtxError),
      Parser.parse module ts = some (m, es) → module ts [] = (some (m, []), es)) ∧
    (∀ (ts rest : List Token) (m : PtxModule) (es : List PtxError),
      module ts [] = (some (m, rest), es) → rest ≠ [] →
        Parser.parse module ts = none) ∧
    Parser.parse module [Token.DotVersion, Token.Decimal "6", Token.Dot,
        Token.Decimal "5", Token.DotTarget, Token.Ident "sm_30"] =
      some ({ version := (6, 5), directives := [] }, []) ∧
    module [Token.DotVersion, Token.Decimal "6", Token.Dot, Token.Decimal "5",
        Token.DotTarget, Token.Ident "sm_30", Token.Semicolon] [] =
      (some ({ version := (6, 5), directives := [] }, [Token.Semicolon]), []) ∧
    Parser.parse module [Token.DotVersion, Token.Decimal "6", Token.Dot,
        Token.Decimal "5", Token.DotTarget, Token.Ident "sm_30",
        Token.Semicolon] = none := by
  refine ⟨?_, ?_, rfl, rfl, rfl⟩
  · intro ts m es h
    unfold Parser.parse at h
    rcases hm : module ts [] with ⟨op, es0⟩
    rw [hm] at h
    rcases op with _ | ⟨a, rest⟩
    · simp at h
    · dsimp only [] at h
      by_cases hr : rest = []
      · subst hr
        rw [if_pos rfl] at h
        simp only [Option.some.injEq, Prod.mk.injEq] at h
        rw [h.1, h.2]
      · rw [if_neg hr] at h
        simp at h
  · intro ts rest m es hm hne
    unfold Parser.parse
    rw [hm]
    simp [hne]

/-! ## Leaf evaluation lemmas for the st default law (type modifier kept
abstract) -/

/-- The type token of an st `.type` alternative binds its scalar type. -/
theorem ldst_type_f_tok (t : StTypeMod) : ldst_type_f t.tok = some t.val := by
  cases t <;> rfl

/-- A type token is not a state-space token. -/
theorem st_ss_f_ty_tok (t : StTypeMod) : st_ss_f t.tok = none := by
  cases t <;> rfl

/-- A type token is not a store cache-operator token. -/
theorem st_cop_f_ty_tok (t : StTypeMod) : st_cop_f t.tok = none := by
  cases t <;> rfl

/-- A type token is not an eviction-priority token. -/
theorem eviction_f_ty_tok (t : StTypeMod) : eviction_f t.tok = none := by
  cases t <;> rfl

/-- A type token is not a vector-width token. -/
theorem vec_f_ty_tok (t : StTypeMod) : vec_f t.tok = none := by
  cases t <;> rfl

/-- A type token is not `.weak`. -/
theorem ty_tok_ne_weak (t : StTypeMod) : (StTypeMod.tok t = Token.DotWeak) = False := by
  cases t <;> simp [StTypeMod.tok]

/-- A type token is not `.volatile`. -/
theorem ty_tok_ne_volatile (t : StTypeMod) :
    (StTypeMod.tok t = Token.DotVolatile) = False := by
  cases t <;> simp [StTypeMod.tok]

/-- A type token is not `.relaxed`. -/
theorem ty_tok_ne_relaxed (t : StTypeMod) :
    (StTypeMod.tok t = Token.DotRelaxed) = False := by
  cases t <;> simp [StTypeMod.tok]

/-- A type token is not `.release`. -/
theorem ty_tok_ne_release (t : StTypeMod) :
    (StTypeMod.tok t = Token.DotRelease) = False := by
  cases t <;> simp [StTypeMod.tok]

/-- A type token is not `.mmio`. -/
theorem ty_tok_ne_mmio (t : StTypeMod) :
    (StTypeMod.tok t = Token.DotMmio) = False := by
  cases t <;> simp [StTypeMod.tok]

/-- A type token is not `.L2::cache_hint`. -/
theorem ty_tok_ne_l2hint (t : StTypeMod) :
    (StTypeMod.tok t = Token.DotL2CacheHint) = False := by
  cases t <;> simp [StTypeMod.tok]

/-- A bracketed register operand evaluates in one step. -/
theorem mem_operand_reg (x : String) (ts : List Token) (es : List PtxError) :
    mem_operand (Token.LBracket :: Token.Ident x :: Token.RBracket :: ts) es =
      (some (ParsedOperand.Reg x, ts), es) := rfl

/-- A final register operand evaluates in one step. -/
theorem parse_operand_reg_end (x : String) (es : List PtxError) :
    ParsedOperand.parse [Token.Ident x] es =
      (some (ParsedOperand.Reg x, []), es) := rfl

/-! ## Step lemmas for evaluating the st parser by rewriting -/

/-- Step a `bind` over a known success of its first parser. -/
theorem Parser.bind_step {α β : Type} {p : Parser α} {f : α → Parser β}
    {ts ts0 : List Token} {es es0 : List PtxError} {a : α}
    (h : p ts es = (some (a, ts0), es0)) :
    Parser.bind p f ts es = f a ts0 es0 := by
  unfold Parser.bind
  rw [h]

/-- A `bind` fails when its first parser fails. -/
theorem Parser.bind_fail {α β : Type} {p : Parser α} {f : α → Parser β}
    {ts : List Token} {es es0 : List PtxError}
    (h : p ts es = (none, es0)) :
    Parser.bind p f ts es = (none, es0) := by
  unfold Parser.bind
  rw [h]

/-- An `alt` falls through to its second parser when the first fails. -/
theorem Parser.alt_step {α : Type} {p q : Parser α} {ts : List Token}
    {es es0 : List PtxError} (h : p ts es = (none, es0)) :
    Parser.alt p q ts es = q ts es0 := by
  unfold Parser.alt
  rw [h]

/-- An `opt` over a success. -/
theorem Parser.opt_some {α : Type} {p : Parser α} {ts ts' : List Token}
    {es es' : List PtxError} {a : α} (h : p ts es = (some (a, ts'), es')) :
    Parser.opt p ts es = (some (some a, ts'), es') := by
  unfold Parser.opt
  rw [h]

/-- An `opt` over a failure consumes nothing. -/
theorem Parser.opt_none {α : Type} {p : Parser α} {ts : List Token}
    {es es' : List PtxError} (h : p ts es = (none, es')) :
    Parser.opt p ts es = (some (none, ts), es') := by
  unfold Parser.opt
  rw [h]

/-- `verify_map` consumes a recognized token. -/
theorem vm_cons_some {α : Type} {f : Token → Option α} {t : Token} {v : α}
    (ts : List Token) (es : List PtxError) (h : f t = some v) :
    Parser.verify_map f (t :: ts) es = (some (v, ts), es) := by
  simp [Parser.verify_map, h]

/-- `verify_map` fails on an unrecognized token. -/
theorem vm_cons_none {α : Type} {f : Token → Option α} {t : Token}
    (ts : List Token) (es : List PtxError) (h : f t = none) :
    Parser.verify_map f (t :: ts) es = (none, es) := by
  simp [Parser.verify_map, h]

/-- The modifier tail after the `.cop` position: its head is a `.vec` token
or the type token, so any recognizer rejecting those fails without
consuming. -/
theorem vm_skip_tail3 {α : Type} (f : Token → Option α)
    (vec : Option VectorPrefix) (ty : StTypeMod) (ops : List Token)
    (es : List PtxError)
    (hvec : ∀ v, f (vec_tok v) = none) (hty : f ty.tok = none) :
    Parser.opt (Parser.verify_map f)
      ((vec.map vec_tok).toList ++ ty.tok :: ops) es =
      (some (none, (vec.map vec_tok).toList ++ ty.tok :: ops), es) := by
  rcases vec with _ | v
  · exact Parser.opt_none (vm_cons_none _ _ hty)
  · exact Parser.opt_none (vm_cons_none _ _ (hvec v))

/-- Like `vm_skip_tail3`, one level earlier (head may also be a `.cop`
token). -/
theorem vm_skip_tail2 {α : Type} (f : Token → Option α)
    (cop : Option RawStCacheOperator) (vec : Option VectorPrefix)
    (ty : StTypeMod) (ops : List Token) (es : List PtxError)
    (hcop : ∀ c, f (st_cop_tok c) = none)
    (hvec : ∀ v, f (vec_tok v) = none) (hty : f ty.tok = none) :
    Parser.opt (Parser.verify_map f)
      ((cop.map st_cop_tok).toList ++ ((vec.map vec_tok).toList ++ ty.tok :: ops)) es =
      (some (none, (cop.map st_cop_tok).toList ++ ((vec.map vec_tok).toList ++ ty.tok :: ops)), es) := by
  rcases cop with _ | c
  · exact vm_skip_tail3 f vec ty ops es hvec hty
  · exact Parser.opt_none (vm_cons_none _ _ (hcop c))

/-- Like `vm_skip_tail2`, one level earlier (head may also be a `.ss`
token). -/
theorem vm_skip_tail1 {α : Type} (f : Token → Option α)
    (ss : Option StSSMod) (cop : Option RawStCacheOperator)
    (vec : Option VectorPrefix) (ty : StTypeMod) (ops : List Token)
    (es : List PtxError)
    (hss : ∀ s, f (StSSMod.tok s) = none)
    (hcop : ∀ c, f (st_cop_tok c) = none)
    (hvec : ∀ v, f (vec_tok v) = none) (hty : f ty.tok = none) :
    Parser.opt (Parser.verify_map f)
      ((ss.map StSSMod.tok).toList ++ ((cop.map st_cop_tok).toList ++
        ((vec.map vec_tok).toList ++ ty.tok :: ops))) es =
      (some (none, (ss.map StSSMod.tok).toList ++ ((cop.map st_cop_tok).toList ++
        ((vec.map vec_tok).toList ++ ty.tok :: ops))), es) := by
  rcases ss with _ | s
  · exact vm_skip_tail2 f cop vec ty ops es hcop hvec hty
  · exact Parser.opt_none (vm_cons_none _ _ (hss s))

/-- A recognizer that rejects every token the modifier run can start with
fails on the whole run (used on the st variants whose first mandatory token
is `.volatile`, `.relaxed`, `.release` or `.mmio`). -/
theorem vm_fail_modifier_run {α : Type} (f : Token → Option α)
    (w : Bool) (ss : Option StSSMod) (cop : Option RawStCacheOperator)
    (vec : Option VectorPrefix) (ty : StTypeMod) (ops : List Token)
    (es : List PtxError)
    (hw : f Token.DotWeak = none)
    (hss : ∀ s, f (StSSMod.tok s) = none)
    (hcop : ∀ c, f (st_cop_tok c) = none)
    (hvec : ∀ v, f (vec_tok v) = none) (hty : f ty.tok = none) :
    Parser.verify_map f
      ((if w then [Token.DotWeak] else []) ++ ((ss.map StSSMod.tok).toList ++
        ((cop.map st_cop_tok).toList ++
          ((vec.map vec_tok).toList ++ ty.tok :: ops)))) es = (none, es) := by
  cases w
  · rcases ss with _ | s
    · rcases cop with _ | c
      · rcases vec with _ | v
        · exact vm_cons_none _ _ hty
        · exact vm_cons_none _ _ (hvec v)
      · exact vm_cons_none _ _ (hcop c)
    · exact vm_cons_none _ _ (hss s)
  · exact vm_cons_none _ _ hw

/-- The optional `.weak` stage of the first st rule. -/
theorem weak_stage (w : Bool) (ss : Option StSSMod)
    (cop : Option RawStCacheOperator) (vec : Option VectorPrefix)
    (ty : StTypeMod) (ops : List Token) (es : List PtxError) :
    Parser.opt (Parser.tok Token.DotWeak)
      ((if w then [Token.DotWeak] else []) ++ ((ss.map StSSMod.tok).toList ++
        ((cop.map st_cop_tok).toList ++
          ((vec.map vec_tok).toList ++ ty.tok :: ops)))) es =
      (some ((if w then some () else none),
        (ss.map StSSMod.tok).toList ++ ((cop.map st_cop_tok).toList ++
          ((vec.map vec_tok).toList ++ ty.tok :: ops))), es) := by
  cases w
  · exact vm_skip_tail1 (Parser.tok_f Token.DotWeak) ss cop vec ty ops es
      (fun s => by cases s <;> rfl) (fun c => by cases c <;> rfl)
      (fun v => by cases v <;> rfl) (by cases ty <;> rfl)
  · exact Parser.opt_some (vm_cons_some _ _ rfl)

/-- The optional `.ss` stage. -/
theorem ss_stage (ss : Option StSSMod) (cop : Option RawStCacheOperator)
    (vec : Option VectorPrefix) (ty : StTypeMod) (ops : List Token)
    (es : List PtxError) :
    Parser.opt (Parser.verify_map st_ss_f)
      ((ss.map StSSMod.tok).toList ++ ((cop.map st_cop_tok).toList ++
        ((vec.map vec_tok).toList ++ ty.tok :: ops))) es =
      (some (ss.map StSSMod.val,
        (cop.map st_cop_tok).toList ++
          ((vec.map vec_tok).toList ++ ty.tok :: ops)), es) := by
  rcases ss with _ | s
  · exact vm_skip_tail2 st_ss_f cop vec ty ops es
      (fun c => by cases c <;> rfl) (fun v => by cases v <;> rfl)
      (st_ss_f_ty_tok ty)
  · exact Parser.opt_some (vm_cons_some _ _ (by cases s <;> rfl))

/-- The optional `.cop` stage. -/
theorem cop_stage (cop : Option RawStCacheOperator) (vec : Option VectorPrefix)
    (ty : StTypeMod) (ops : List Token) (es : List PtxError) :
    Parser.opt (Parser.verify_map st_cop_f)
      ((cop.map st_cop_tok).toList ++
        ((vec.map vec_tok).toList ++ ty.tok :: ops)) es =
      (some (cop, (vec.map vec_tok).toList ++ ty.tok :: ops), es) := by
  rcases cop with _ | c
  · exact vm_skip_tail3 st_cop_f vec ty ops es
      (fun v => by cases v <;> rfl) (st_cop_f_ty_tok ty)
  · exact Parser.opt_some (vm_cons_some _ _ (by cases c <;> rfl))

/-- The (always absent here) eviction-priority stage. -/
theorem evict_stage (vec : Option VectorPrefix) (ty : StTypeMod)
    (ops : List Token) (es : List PtxError) :
    Parser.opt (Parser.verify_map eviction_f)
      ((vec.map vec_tok).toList ++ ty.tok :: ops) es =
      (some (none, (vec.map vec_tok).toList ++ ty.tok :: ops), es) :=
  vm_skip_tail3 eviction_f vec ty ops es
    (fun v => by cases v <;> rfl) (eviction_f_ty_tok ty)

/-- The (always absent here) cache-hint stage. -/
theorem hint_stage (vec : Option VectorPrefix) (ty : StTypeMod)
    (ops : List Token) (es : List PtxError) :
    Parser.opt (Parser.tok Token.DotL2CacheHint)
      ((vec.map vec_tok).toList ++ ty.tok :: ops) es =
      (some (none, (vec.map vec_tok).toList ++ ty.tok :: ops), es) :=
  vm_skip_tail3 (Parser.tok_f Token.DotL2CacheHint) vec ty ops es
    (fun v => by cases v <;> rfl) (by cases ty <;> rfl)

/-- The optional `.vec` stage. -/
theorem vec_stage (vec : Option VectorPrefix) (ty : StTypeMod)
    (ops : List Token) (es : List PtxError) :
    Parser.opt (Parser.verify_map vec_f)
      ((vec.map vec_tok).toList ++ ty.tok :: ops) es =
      (some (vec, ty.tok :: ops), es) := by
  rcases vec with _ | v
  · exact Parser.opt_none (vm_cons_none _ _ (vec_f_ty_tok ty))
  · exact Parser.opt_some (vm_cons_some _ _ (by cases v <;> rfl))

/-- The mandatory `.type` stage. -/
theorem type_stage (ty : StTypeMod) (ops : List Token) (es : List PtxError) :
    Parser.verify_map ldst_type_f (ty.tok :: ops) es =
      (some (ty.val, ops), es) :=
  vm_cons_some _ _ (ldst_type_f_tok ty)

/-- A `tok` on a modifier run whose tokens it rejects. -/
theorem tok_fail_modifier_run (x : Token) (w : Bool) (ss : Option StSSMod)
    (cop : Option RawStCacheOperator) (vec : Option VectorPrefix)
    (ty : StTypeMod) (ops : List Token) (es : List PtxError)
    (hw : Parser.tok_f x Token.DotWeak = none)
    (hss : ∀ s, Parser.tok_f x (StSSMod.tok s) = none)
    (hcop : ∀ c, Parser.tok_f x (st_cop_tok c) = none)
    (hvec : ∀ v, Parser.tok_f x (vec_tok v) = none)
    (hty : Parser.tok_f x ty.tok = none) :
    Parser.tok x
      ((if w then [Token.DotWeak] else []) ++ ((ss.map StSSMod.tok).toList ++
        ((cop.map st_cop_tok).toList ++
          ((vec.map vec_tok).toList ++ ty.tok :: ops)))) es = (none, es) :=
  vm_fail_modifier_run (Parser.tok_f x) w ss cop vec ty ops es hw hss hcop hvec hty

/-- The first st rule evaluated on any combination of the optional
modifiers and register operands `[a], b`: defaults materialize and no
diagnostic is pushed. -/
theorem st_variant1_run (w : Bool) (ss : Option StSSMod)
    (cop : Option RawStCacheOperator) (vec : Option VectorPrefix)
    (ty : StTypeMod) (a b : String) (es : List PtxError) :
    st_variant1
      ((if w then [Token.DotWeak] else []) ++ ((ss.map StSSMod.tok).toList ++
        ((cop.map st_cop_tok).toList ++ ((vec.map vec_tok).toList ++
          ty.tok :: [Token.LBracket, Token.Ident a, Token.RBracket,
            Token.Comma, Token.Ident b])))) es =
      (some (Instruction.St
        { qualifier := LdStQualifier.Weak,
          state_space := (ss.map StSSMod.val).getD StateSpace.Generic,
          caching := (cop.getD RawStCacheOperator.Wb).into,
          typ := PtxType.maybe_vector vec ty.val }
        { src1 := ParsedOperand.Reg a, src2 := ParsedOperand.Reg b }, []), es) := by
  cases w <;>
    (unfold st_variant1
     rw [Parser.bind_step (weak_stage _ _ _ _ _ _ _)]
     dsimp only []
     rw [Parser.bind_step (ss_stage _ _ _ _ _ _)]
     rw [Parser.bind_step (cop_stage _ _ _ _ _)]
     rw [Parser.bind_step (evict_stage _ _ _ _)]
     rw [Parser.bind_step (hint_stage _ _ _ _)]
     rw [Parser.bind_step (vec_stage _ _ _ _)]
     rw [Parser.bind_step (type_stage _ _ _)]
     rfl)

/-- `st.volatile` cannot start on a first-rule modifier run. -/
theorem st_volatile_fail (w : Bool) (ss : Option StSSMod)
    (cop : Option RawStCacheOperator) (vec : Option VectorPrefix)
    (ty : StTypeMod) (ops : List Token) (es : List PtxError) :
    st_volatile
      ((if w then [Token.DotWeak] else []) ++ ((ss.map StSSMod.tok).toList ++
        ((cop.map st_cop_tok).toList ++
          ((vec.map vec_tok).toList ++ ty.tok :: ops)))) es = (none, es) :=
  Parser.bind_fail (tok_fail_modifier_run Token.DotVolatile w ss cop vec ty ops es
    rfl (fun s => by cases s <;> rfl) (fun c => by cases c <;> rfl)
    (fun v => by cases v <;> rfl) (by cases ty <;> rfl))

/-- `st.relaxed` cannot start on a first-rule modifier run. -/
theorem st_relaxed_fail (w : Bool) (ss : Option StSSMod)
    (cop : Option RawStCacheOperator) (vec : Option VectorPrefix)
    (ty : StTypeMod) (ops : List Token) (es : List PtxError) :
    st_relaxed
      ((if w then [Token.DotWeak] else []) ++ ((ss.map StSSMod.tok).toList ++
        ((cop.map st_cop_tok).toList ++
          ((vec.map vec_tok).toList ++ ty.tok :: ops)))) es = (none, es) :=
  Parser.bind_fail (tok_fail_modifier_run Token.DotRelaxed w ss cop vec ty ops es
    rfl (fun s => by cases s <;> rfl) (fun c => by cases c <;> rfl)
    (fun v => by cases v <;> rfl) (by cases ty <;> rfl))

/-- `st.release` cannot start on a first-rule modifier run. -/
theorem st_release_fail (w : Bool) (ss : Option StSSMod)
    (cop : Option RawStCacheOperator) (vec : Option VectorPrefix)
    (ty : StTypeMod) (ops : List Token) (es : List PtxError) :
    st_release
      ((if w then [Token.DotWeak] else []) ++ ((ss.map StSSMod.tok).toList ++
        ((cop.map st_cop_tok).toList ++
          ((vec.map vec_tok).toList ++ ty.tok :: ops)))) es = (none, es) :=
  Parser.bind_fail (tok_fail_modifier_run Token.DotRelease w ss cop vec ty ops es
    rfl (fun s => by cases s <;> rfl) (fun c => by cases c <;> rfl)
    (fun v => by cases v <;> rfl) (by cases ty <;> rfl))

/-- `st.mmio` cannot start on a first-rule modifier run. -/
theorem st_mmio_fail (w : Bool) (ss : Option StSSMod)
    (cop : Option RawStCacheOperator) (vec : Option VectorPrefix)
    (ty : StTypeMod) (ops : List Token) (es : List PtxError) :
    st_mmio
      ((if w then [Token.DotWeak] else []) ++ ((ss.map StSSMod.tok).toList ++
        ((cop.map st_cop_tok).toList ++
          ((vec.map vec_tok).toList ++ ty.tok :: ops)))) es = (none, es) :=
  Parser.bind_fail (tok_fail_modifier_run Token.DotMmio w ss cop vec ty ops es
    rfl (fun s => by cases s <;> rfl) (fun c => by cases c <;> rfl)
    (fun v => by cases v <;> rfl) (by cases ty <;> rfl))

/-- The st opcode parser on a first-rule instruction. -/
theorem st_inst_run (w : Bool) (ss : Option StSSMod)
    (cop : Option RawStCacheOperator) (vec : Option VectorPrefix)
    (ty : StTypeMod) (a b : String) (es : List PtxError) :
    st_inst
      ((if w then [Token.DotWeak] else []) ++ ((ss.map StSSMod.tok).toList ++
        ((cop.map st_cop_tok).toList ++ ((vec.map vec_tok).toList ++
          ty.tok :: [Token.LBracket, Token.Ident a, Token.RBracket,
            Token.Comma, Token.Ident b])))) es =
      (some (Instruction.St
        { qualifier := LdStQualifier.Weak,
          state_space := (ss.map StSSMod.val).getD StateSpace.Generic,
          caching := (cop.getD RawStCacheOperator.Wb).into,
          typ := PtxType.maybe_vector vec ty.val }
        { src1 := ParsedOperand.Reg a, src2 := ParsedOperand.Reg b }, []), es) := by
  unfold st_inst
  rw [Parser.alt_step (st_volatile_fail w ss cop vec ty _ es)]
  rw [Parser.alt_step (st_relaxed_fail w ss cop vec ty _ es)]
  rw [Parser.alt_step (st_release_fail w ss cop vec ty _ es)]
  rw [Parser.alt_step (st_mmio_fail w ss cop vec ty _ es)]
  exact st_variant1_run w ss cop vec ty a b es

/-- The opcode dispatch on `st`. -/
theorem parse_instruction_st (rest : List Token) (es : List PtxError) :
    parse_instruction (Token.Ident "st" :: rest) es = st_inst rest es := rfl

/-- C1: for every first-rule st instruction (any combination of the
optional `.weak`, `.ss`, `.cop` and `.vec` modifiers with the mandatory
type, and register operands `[a], b`), the constructed `St` data carries
the ISA-implied defaults — the qualifier is `Weak` whether `.weak` is
present or omitted, an omitted `.ss` gives `Generic`, an omitted `.cop`
gives `Writeback` (`Wb.into`) — and no diagnostic is pushed; in particular
`st.global.wt.v4.b32 [p], v` parses to `St` with qualifier `Weak`, state
space `Global`, caching `Writethrough`, type `Vector(V4, B32)` and no
diagnostics. -/
theorem st_data_defaults :
    (∀ (w : Bool) (ss : Option StSSMod) (cop : Option RawStCacheOperator)
        (vec : Option VectorPrefix) (ty : StTypeMod) (a b : String)
        (es : List PtxError),
      parse_instruction
          (Token.Ident "st" :: st_modifier_tokens w ss cop vec ty ++
            [Token.LBracket, Token.Ident a, Token.RBracket, Token.Comma,
              Token.Ident b]) es =
        (some (Instruction.St
          { qualifier := LdStQualifier.Weak,
            state_space := (ss.map StSSMod.val).getD StateSpace.Generic,
            caching := (cop.getD RawStCacheOperator.Wb).into,
            typ := PtxType.maybe_vector vec ty.val }
          { src1 := ParsedOperand.Reg a, src2 := ParsedOperand.Reg b }, []), es)) ∧
    parse_instruction [Token.Ident "st", Token.DotGlobal, Token.DotWt,
        Token.DotV4, Token.DotB32, Token.LBracket, Token.Ident "p",
        Token.RBracket, Token.Comma, Token.Ident "v"] [] =
      (some (Instruction.St
        { qualifier := LdStQualifier.Weak, state_space := StateSpace.Global,
          caching := StCacheOperator.Writethrough,
          typ := PtxType.Vector VectorPrefix.V4 ScalarType.B32 }
        { src1 := ParsedOperand.Reg "p", src2 := ParsedOperand.Reg "v" }, []),
        []) := by
  refine ⟨?_, rfl⟩
  intro w ss cop vec ty a b es
  simp only [st_modifier_tokens, List.cons_append, List.append_assoc,
    List.singleton_append, List.nil_append]
  rw [parse_instruction_st]
  exact st_inst_run w ss cop vec ty a b es
